import Mathlib

set_option maxRecDepth 100000

/-!
Verification development for the Trinus viability engine
(`trinus_viabilidade/simulador.py` together with the data model of
`modelos.py` and the disbursement curves of `dados_mercado.py`).

The Python code is shallowly embedded over exact rationals (`ℚ` stands for
Python floats; the floating-point tolerance in the spec becomes exact
equality or an explicit `|x - y| > tol` bound).  Month counts and list
indices are natural numbers; Python `int(...)` truncation toward zero is
modelled by `pyInt`.  Mutable-list building (`xs[i] += v`, `xs[i] = v`)
is modelled by pure updates on `List ℚ`.

Presentation-only data that no part of the engine reads (freeform
description strings of assumptions, the state/city/standard input fields,
amortisation-system labels) is omitted from the record types; a comment
marks each omission.
-/

/-- Project typology (`modelos.Tipologia`). -/
inductive Tipologia where
  | LOTEAMENTO
  | INCORPORACAO_VERTICAL
  | INCORPORACAO_HORIZONTAL
  | MULTIPROPRIEDADE
  | MIXED_USE
deriving DecidableEq

/-- The engine-relevant fields of `modelos.InputsUsuario`.  The source record
also carries `estado`, `cidade`, `padrao`, `tipo_negociacao`,
`vgv_estimado`, `area_privativa_media_m2` and the `permuta_*` fields, none
of which is read by `simular` or `gerar_diagnostico`. -/
structure Inputs where
  tipologia : Tipologia
  num_unidades : ℕ
  area_terreno_m2 : Option ℚ
deriving DecidableEq

/-- The engine-relevant fields of `modelos.Premissa`: the simulator reads
only `nome` and `valor` (unit, range, source, category, editability and
description are metadata for the form/diagnostic texts). -/
structure Premissa where
  nome : String
  valor : ℚ
deriving DecidableEq

/-- `modelos.TabelaVendasIncorporacao` (the two correction-index label
fields, pure metadata, are omitted). -/
structure TabelaVendasIncorporacao where
  entrada_pct : ℚ
  parcelas_obra_pct : ℚ
  financiamento_pct : ℚ
  reforcos_pct : ℚ
  num_parcelas_obra : ℕ
deriving DecidableEq

/-- `modelos.TabelaVendasLoteamento` (`sistema_amortizacao`, `juros_am` and
`indexador`, which the simulator never reads, are omitted). -/
structure TabelaVendasLoteamento where
  entrada_pct : ℚ
  saldo_parcelado_pct : ℚ
  num_parcelas : ℕ
  intermediarias_pct : ℚ
  num_parcelas_entrada : ℕ
deriving DecidableEq

/-- `modelos.ResultadoPremissas` (the `versao` tag is omitted). -/
structure ResultadoPremissas where
  inputs : Inputs
  premissas : List Premissa
  tabela_vendas : Option TabelaVendasIncorporacao
  tabela_vendas_loteamento : Option TabelaVendasLoteamento
deriving DecidableEq

/-- `ResultadoPremissas.get_premissa`: first premissa whose `nome` matches. -/
def getPremissa (r : ResultadoPremissas) (nome : String) : Option Premissa :=
  r.premissas.find? (fun p => p.nome == nome)

/-- `simulador._get_premissa_valor`: value of the named premissa, or the
`default` argument (0 in the source signature) when it is absent. -/
def getPremissaValor (r : ResultadoPremissas) (nome : String) (default : ℚ) : ℚ :=
  match getPremissa r nome with
  | some p => p.valor
  | none => default

/-- Python `int(...)` on a float: truncation toward zero (computed from the
numerator and denominator; for a non-negative rational, integer division of
`num` by `den` is the floor, and negation carries it to the ceiling). -/
def pyInt (q : ℚ) : ℤ :=
  if 0 ≤ q then q.num / (q.den : ℤ) else -((-q).num / ((-q).den : ℤ))

/-- A premissa read through `int(_get_premissa_valor(...))` and used as a
month count.  Negative durations fall outside the embedded domain, so the
integer is clamped into `ℕ`. -/
def natPremissa (r : ResultadoPremissas) (nome : String) (default : ℚ) : ℕ :=
  (pyInt (getPremissaValor r nome default)).toNat

/-- Python `range(a, b)` over naturals: `[a, a+1, ..., b-1]` (empty for `b ≤ a`). -/
def pyRange (a b : ℕ) : List ℕ :=
  (List.range (b - a)).map (a + ·)

/-- `xs[i] += v` on a Python list: no-op when `i` is out of range (every
out-of-range add in the source is guarded by an `if idx < total_meses`,
which this models as a `filter` before the add or directly by this no-op). -/
def addAt (l : List ℚ) (i : ℕ) (v : ℚ) : List ℚ :=
  l.set i (l.getD i 0 + v)

/-- Sequence of `+=` updates. -/
def addPairs (l : List ℚ) (ps : List (ℕ × ℚ)) : List ℚ :=
  ps.foldl (fun acc p => addAt acc p.1 p.2) l

/-- Running-sum list (`fluxo_acumulado` building loop). -/
def cumsumFrom (acc : ℚ) : List ℚ → List ℚ
  | [] => []
  | x :: xs => (acc + x) :: cumsumFrom (acc + x) xs

/-- Python `min(l)` for a nonempty list, paired with the source's
`min(fluxo_acumulado) if fluxo_acumulado else 0.0`. -/
def listMin : List ℚ → ℚ
  | [] => 0
  | x :: xs => xs.foldl min x

/-- Sum of a list of rationals. -/
def listSum (l : List ℚ) : ℚ := l.foldl (· + ·) 0

example : pyRange 3 6 = [3, 4, 5] := by decide
example : pyRange 5 3 = [] := by decide

unseal Rat.add Rat.mul Rat.inv Rat.sub in
example : addPairs [0, 0, 0] [(1, 2), (1, 3), (5, 7)] = [0, 5, 0] := by decide

unseal Rat.add Rat.mul Rat.inv Rat.sub in
example : cumsumFrom 0 [1, -2, 4] = [1, -1, 3] := by decide

example : listMin [3, -2, 7] = -2 := by decide

/-- Python `abs(x)` (also the `abs(...)` calls inside the IRR solver). -/
def pyAbs (q : ℚ) : ℚ := if q < 0 then -q else q

/-!  ## Section 1 of `simular`: premissa extraction

The sales-table variables.  The source binds one shared set of local names
(`tv_entrada_pct`, ...) in an `if / elif / else` chain; here each variant's
values are gathered into a record.  One source path is not representable
as a value: for a loteamento study whose `tabela_vendas_loteamento` is
`None` while `tabela_vendas` is set, the source binds only the
incorporação names and then hits an unbound local name (`NameError`) at
the `pos_obra_meses` line; that crashing path is modelled by falling back
to the loteamento defaults.  No claim below exercises it. -/

/-- Loteamento sales-table parameters (percentages already divided by 100). -/
structure LotParams where
  entrada_pct : ℚ
  saldo_parcelado_pct : ℚ
  num_parcelas : ℕ
  num_parcelas_entrada : ℕ
  intermediarias_pct : ℚ
deriving DecidableEq

/-- Incorporação sales-table parameters (percentages already divided by 100). -/
structure IncParams where
  entrada_pct : ℚ
  parcelas_obra_pct : ℚ
  financiamento_pct : ℚ
  reforcos_pct : ℚ
  num_parcelas_obra : ℕ
deriving DecidableEq

/-- Loteamento sales-table values: from `tabela_vendas_loteamento` when
present, otherwise the hardcoded defaults of the `else` branch. -/
def lotParamsOf (r : ResultadoPremissas) : LotParams :=
  match r.tabela_vendas_loteamento with
  | some tv =>
      ⟨tv.entrada_pct / 100, tv.saldo_parcelado_pct / 100, tv.num_parcelas,
        tv.num_parcelas_entrada, tv.intermediarias_pct / 100⟩
  | none => ⟨10 / 100, 90 / 100, 180, 3, 0⟩

/-- Incorporação sales-table values: from `tabela_vendas` when present,
otherwise the hardcoded defaults of the `else` branch. -/
def incParamsOf (r : ResultadoPremissas) : IncParams :=
  match r.tabela_vendas with
  | some tv =>
      ⟨tv.entrada_pct / 100, tv.parcelas_obra_pct / 100, tv.financiamento_pct / 100,
        tv.reforcos_pct / 100, tv.num_parcelas_obra⟩
  | none => ⟨10 / 100, 25 / 100, 55 / 100, 10 / 100, 24⟩

/-- All premissa-derived simulation parameters (section 1 of `simular`),
with percentages divided by 100 exactly as in the source. -/
structure SimParams where
  tipologia : Tipologia
  num_unidades : ℕ
  vgv : ℚ
  ticket : ℚ
  prazo_obra : ℕ
  prazo_registro : ℕ
  vendas_lancamento_pct : ℚ
  vendas_obra_pct : ℚ
  vendas_pos_obra_pct : ℚ
  distrato_pct : ℚ
  inadimplencia_pct : ℚ
  terreno_pct_vgv : ℚ
  bdi_pct : ℚ
  projetos_pct : ℚ
  aprovacoes_pct : ℚ
  iptu_pct : ℚ
  custo_construcao_base : ℚ
  corretagem_pct : ℚ
  marketing_pct : ℚ
  stand_pct : ℚ
  coordenacao_pct : ℚ
  premiacao_pct : ℚ
  admin_pct : ℚ
  gestao_pct : ℚ
  seguros_pct : ℚ
  preop_pct : ℚ
  aliquota_trib : ℚ
  ri_pct : ℚ
  escrituras_pct : ℚ
  itbi_pct : ℚ
  tma_anual : ℚ
  lot : LotParams
  inc : IncParams
deriving DecidableEq

/-- Section 1 of `simular`: extract every premissa value (with the source's
defaults), the construction cost base, and the sales-table parameters.
`area_terreno_m2 or (num_unidades * 200)` uses Python truthiness: the
fallback applies both to `None` and to an explicit 0. -/
def mkParams (r : ResultadoPremissas) : SimParams :=
  let inputs := r.inputs
  let eLot := inputs.tipologia = Tipologia.LOTEAMENTO
  let num_unidades := inputs.num_unidades
  let custo_construcao_base : ℚ :=
    if eLot then
      let custo_infra_m2 := getPremissaValor r "Custo de infraestrutura por m²" 0
      let area_terreno : ℚ :=
        match inputs.area_terreno_m2 with
        | some a => if a = 0 then (num_unidades : ℚ) * 200 else a
        | none => (num_unidades : ℚ) * 200
      custo_infra_m2 * area_terreno
    else
      let custo_m2 := getPremissaValor r "Custo de construção por m²" 0
      let area_priv := getPremissaValor r "Área privativa média por unidade" 60
      custo_m2 * area_priv * (num_unidades : ℚ)
  { tipologia := inputs.tipologia
    num_unidades := num_unidades
    vgv := getPremissaValor r "VGV estimado" 0
    ticket := getPremissaValor r "Ticket médio por unidade" 0
    prazo_obra := natPremissa r "Prazo de obra estimado" 24
    prazo_registro := natPremissa r "Prazo para Registro de Incorporação/Loteamento" 6
    vendas_lancamento_pct := getPremissaValor r "Vendas no lançamento" 30 / 100
    vendas_obra_pct := getPremissaValor r "Vendas durante obra" 50 / 100
    vendas_pos_obra_pct := getPremissaValor r "Vendas pós-obra" 20 / 100
    distrato_pct := getPremissaValor r "Taxa de distrato estimada" 5 / 100
    inadimplencia_pct := getPremissaValor r "Taxa de inadimplência estimada" 5 / 100
    terreno_pct_vgv := getPremissaValor r "Custo do terreno (% VGV)" 0 / 100
    bdi_pct := getPremissaValor r "Taxa de administração de obra (BDI)" 0 / 100
    projetos_pct := getPremissaValor r "Custo de projetos e consultorias" 0 / 100
    aprovacoes_pct := getPremissaValor r "Custo de aprovações e licenças" 0 / 100
    iptu_pct := getPremissaValor r "IPTU do terreno" 0 / 100
    custo_construcao_base := custo_construcao_base
    corretagem_pct := getPremissaValor r "Comissão de corretagem" 0 / 100
    marketing_pct := getPremissaValor r "Marketing e publicidade" 0 / 100
    stand_pct := getPremissaValor r "Stand de vendas" 0 / 100
    coordenacao_pct := getPremissaValor r "Coordenação comercial" 0 / 100
    premiacao_pct := getPremissaValor r "Premiação de corretores" 0 / 100
    admin_pct := getPremissaValor r "Despesas administrativas" 0 / 100
    gestao_pct := getPremissaValor r "Taxa de gestão do empreendimento" 0 / 100
    seguros_pct := getPremissaValor r "Seguros" 0 / 100
    preop_pct := getPremissaValor r "Despesas pré-operacionais" 0 / 100
    aliquota_trib := getPremissaValor r "Alíquota tributária (regime sugerido)" 0 / 100
    ri_pct := getPremissaValor r "Registro de incorporação / loteamento" 0 / 100
    escrituras_pct := getPremissaValor r "Custos com escrituras e registros do imóvel" 0 / 100
    itbi_pct := getPremissaValor r "ITBI sobre aquisição do terreno (% valor terreno)" 0 / 100
    tma_anual := getPremissaValor r "Taxa Mínima de Atratividade (TMA)" 15 / 100
    lot := lotParamsOf r
    inc := incParamsOf r }

/-!  ## Section 2 of `simular`: timeline -/

/-- `pos_obra_meses`: post-delivery tail, in `ℤ` because the loteamento cap
`300 - prazo_registro - prazo_obra` can be negative. -/
def posObraMeses (p : SimParams) : ℤ :=
  if p.tipologia = Tipologia.LOTEAMENTO then
    min ((p.lot.num_parcelas : ℤ) + 12) (300 - (p.prazo_registro : ℤ) - (p.prazo_obra : ℤ))
  else 24

/-- `total_meses = max(prazo_registro + prazo_obra + pos_obra_meses, 36)`
(always ≥ 36, so the `ℤ → ℕ` cast is exact). -/
def totalMeses (p : SimParams) : ℕ :=
  (max ((p.prazo_registro : ℤ) + (p.prazo_obra : ℤ) + posObraMeses p) 36).toNat

/-- `mes_lancamento = prazo_registro`. -/
def mesLancamento (p : SimParams) : ℕ := p.prazo_registro

/-- `mes_entrega = prazo_registro + prazo_obra`. -/
def mesEntrega (p : SimParams) : ℕ := p.prazo_registro + p.prazo_obra

/-!  ## Section 3 of `simular`: unit-sales schedule -/

/-- `meses_obra_venda = max(prazo_obra - meses_lancamento, 1)` with
`meses_lancamento = 3` (ℕ-truncated subtraction agrees with the Python
integer value once clamped by `max · 1`). -/
def mesesObraVenda (p : SimParams) : ℕ := max (p.prazo_obra - 3) 1

/-- Per-month unit sales.  The source fills `unidades_vendas` with three
sequential whole-assignment loops (launch, construction, post-delivery),
each writing `unidades_vendas[m] = v`; a later loop therefore overwrites
an earlier one on overlapping indices, so the month's value is that of
the last loop whose range contains it (checked here in reverse order). -/
def unidadesVendasFn (p : SimParams) (m : ℕ) : ℚ :=
  let total := totalMeses p
  let lanc := mesLancamento p
  let entrega := mesEntrega p
  let un_lancamento := (p.num_unidades : ℚ) * p.vendas_lancamento_pct
  let un_obra := (p.num_unidades : ℚ) * p.vendas_obra_pct
  let un_pos := (p.num_unidades : ℚ) * p.vendas_pos_obra_pct
  if entrega ≤ m ∧ m < min (entrega + 12) total then un_pos / 12
  else if lanc + 3 ≤ m ∧ m < min entrega total then un_obra / (mesesObraVenda p : ℚ)
  else if lanc ≤ m ∧ m < min (lanc + 3) total then un_lancamento / 3
  else 0

/-- The `unidades_vendas` list. -/
def unidadesVendas (p : SimParams) : List ℚ :=
  (List.range (totalMeses p)).map (unidadesVendasFn p)

/-- `fator_liquido = 1 - distrato_pct`. -/
def fatorLiquido (p : SimParams) : ℚ := 1 - p.distrato_pct

/-!  ## Section 4 of `simular`: revenue schedule

Each inner loop of the revenue section is rendered as the list of
`(index, value)` pairs it adds (the `if idx < total_meses` guards become
`filter`s), applied with `addPairs`. -/

/-- `num_reforcos = max(1, (mes_entrega - m) // 6)`.  ℕ-truncated
subtraction agrees with the Python value after the `max · 1` clamp. -/
def reforcoNum (entrega m : ℕ) : ℕ := max 1 ((entrega - m) / 6)

/-- Reinforcement additions for a unit sold at month `m` (incorporação):
`valor_reforco` at `m + 6r` for `r = 1..num_reforcos`, kept when inside
the horizon. -/
def reforcoPairs (valor_venda reforcos_pct : ℚ) (entrega m total : ℕ) : List (ℕ × ℚ) :=
  if 0 < reforcos_pct then
    ((pyRange 1 (reforcoNum entrega m + 1)).map
        (fun rr => (m + rr * 6, valor_venda * reforcos_pct / (reforcoNum entrega m : ℚ)))).filter
      (fun q => q.1 < total)
  else []

/-- Down payment at the sale month (incorporação). -/
def entradaIncPairs (valor_venda entrada_pct : ℚ) (m : ℕ) : List (ℕ × ℚ) :=
  [(m, valor_venda * entrada_pct)]

/-- During-construction installments (incorporação): `k = 1..n` at `m + k`. -/
def parcelasObraPairs (valor_venda parcelas_pct : ℚ) (n m total : ℕ) : List (ℕ × ℚ) :=
  if 0 < n then
    ((pyRange 1 (n + 1)).map (fun k => (m + k, valor_venda * parcelas_pct / (n : ℚ)))).filter
      (fun q => q.1 < total)
  else []

/-- Bank-financing lump sum at delivery (incorporação). -/
def financPairs (valor_venda financiamento_pct : ℚ) (entrega total : ℕ) : List (ℕ × ℚ) :=
  if entrega < total then [(entrega, valor_venda * financiamento_pct)] else []

/-- Down payment spread over its installments (loteamento): `k = 0..n-1`. -/
def entradaLotPairs (valor_venda entrada_pct : ℚ) (nEnt m total : ℕ) : List (ℕ × ℚ) :=
  ((pyRange 0 nEnt).map (fun k => (m + k, valor_venda * entrada_pct / (nEnt : ℚ)))).filter
    (fun q => q.1 < total)

/-- Amortised balance (loteamento): `parcelas_efetivas` months starting
after the down-payment installments, each worth `valor_saldo / num_parcelas`
(the per-installment value divides by the full count, so truncated
installments are dropped, not redistributed). -/
def saldoPairs (valor_venda saldo_pct : ℚ) (nParc nEnt m total : ℕ) : List (ℕ × ℚ) :=
  let comeco := m + nEnt
  let efetivas := min nParc (total - comeco)
  if 0 < efetivas then
    (pyRange 0 efetivas).map (fun k => (comeco + k, valor_venda * saldo_pct / (nParc : ℚ)))
  else []

/-- Annual intermediate payments (loteamento): at `m + 12·ano` for
`ano = 1..num_anos` with `num_anos = max(1, (total_meses - m) // 12)`. -/
def intermediariasPairs (valor_venda intermediarias_pct : ℚ) (m total : ℕ) : List (ℕ × ℚ) :=
  if 0 < intermediarias_pct then
    let numAnos := max 1 ((total - m) / 12)
    ((pyRange 1 (numAnos + 1)).map
        (fun ano => (m + ano * 12, valor_venda * intermediarias_pct / (numAnos : ℚ)))).filter
      (fun q => q.1 < total)
  else []

/-- The four revenue arrays built by section 4. -/
structure RevArrays where
  receitas : List ℚ
  rec_entrada : List ℚ
  rec_parcelas : List ℚ
  rec_intermediarias : List ℚ
deriving DecidableEq

/-- A list of `n` zeros (`[0.0] * n`). -/
def zerosQ (n : ℕ) : List ℚ := List.replicate n 0

/-- One iteration of the revenue loop: the contributions of the units sold
at month `m`. -/
def revStep (p : SimParams) (a : RevArrays) (m : ℕ) : RevArrays :=
  let total := totalMeses p
  let un := unidadesVendasFn p m * fatorLiquido p
  if un ≤ 0 then a
  else
    let valor_venda := p.ticket * un
    if p.tipologia = Tipologia.LOTEAMENTO then
      let e := entradaLotPairs valor_venda p.lot.entrada_pct p.lot.num_parcelas_entrada m total
      let s := saldoPairs valor_venda p.lot.saldo_parcelado_pct p.lot.num_parcelas
        p.lot.num_parcelas_entrada m total
      let i := intermediariasPairs valor_venda p.lot.intermediarias_pct m total
      { receitas := addPairs a.receitas (e ++ s ++ i)
        rec_entrada := addPairs a.rec_entrada e
        rec_parcelas := addPairs a.rec_parcelas s
        rec_intermediarias := addPairs a.rec_intermediarias i }
    else
      let e := entradaIncPairs valor_venda p.inc.entrada_pct m
      let s := parcelasObraPairs valor_venda p.inc.parcelas_obra_pct p.inc.num_parcelas_obra m total
      let f := financPairs valor_venda p.inc.financiamento_pct (mesEntrega p) total
      let rf := reforcoPairs valor_venda p.inc.reforcos_pct (mesEntrega p) m total
      { receitas := addPairs a.receitas (e ++ s ++ f ++ rf)
        rec_entrada := addPairs a.rec_entrada e
        rec_parcelas := addPairs a.rec_parcelas s
        rec_intermediarias := addPairs a.rec_intermediarias (f ++ rf) }

/-- Section 4: gross revenue arrays (before the bad-debt haircut). -/
def revArrays (p : SimParams) : RevArrays :=
  let z := zerosQ (totalMeses p)
  (List.range (totalMeses p)).foldl (revStep p) ⟨z, z, z, z⟩

/-!  ## Section 5 of `simular`: cost schedule -/

/-- `dados_mercado.CURVA_DESEMBOLSO` (points as `(fraction, percent)`).
The source reads it with `.get(tipologia, CURVA_DESEMBOLSO[INCORPORACAO_VERTICAL])`;
every typology is a key, so the default is never taken. -/
def curvaOf : Tipologia → List (ℚ × ℚ)
  | Tipologia.LOTEAMENTO =>
      [(0, 0), (1/10, 8), (2/10, 20), (3/10, 35), (4/10, 50), (5/10, 63),
        (6/10, 74), (7/10, 83), (8/10, 90), (9/10, 96), (1, 100)]
  | Tipologia.INCORPORACAO_VERTICAL =>
      [(0, 0), (1/10, 5), (2/10, 12), (3/10, 22), (4/10, 35), (5/10, 50),
        (6/10, 65), (7/10, 78), (8/10, 88), (9/10, 95), (1, 100)]
  | Tipologia.INCORPORACAO_HORIZONTAL =>
      [(0, 0), (1/10, 6), (2/10, 15), (3/10, 28), (4/10, 42), (5/10, 55),
        (6/10, 68), (7/10, 80), (8/10, 89), (9/10, 96), (1, 100)]
  | Tipologia.MULTIPROPRIEDADE =>
      [(0, 0), (1/10, 5), (2/10, 12), (3/10, 22), (4/10, 35), (5/10, 50),
        (6/10, 65), (7/10, 78), (8/10, 88), (9/10, 95), (1, 100)]
  | Tipologia.MIXED_USE =>
      [(0, 0), (1/10, 4), (2/10, 10), (3/10, 20), (4/10, 33), (5/10, 48),
        (6/10, 63), (7/10, 77), (8/10, 88), (9/10, 95), (1, 100)]

/-- The consecutive-pair scan of `_interpolar_curva`; falls through to the
last point's value (an empty curve would raise in Python; unreachable). -/
def interpGo : List (ℚ × ℚ) → ℚ → ℚ
  | (x0, y0) :: (x1, y1) :: rest, pct =>
      if x0 ≤ pct ∧ pct ≤ x1 then
        if x1 = x0 then y0 else y0 + (pct - x0) / (x1 - x0) * (y1 - y0)
      else interpGo ((x1, y1) :: rest) pct
  | [(_, y)], _ => y
  | [], _ => 0

/-- `simulador._interpolar_curva`: clamp into `[0, 1]`, then interpolate. -/
def interpolarCurva (curva : List (ℚ × ℚ)) (pct : ℚ) : ℚ :=
  interpGo curva (max 0 (min 1 pct))

/-- Month `m`'s increment of the cumulative disbursement fraction
(`desemb_atual - desemb_anterior`, both already divided by 100). -/
def deltaDesembolso (p : SimParams) (m : ℕ) : ℚ :=
  interpolarCurva (curvaOf p.tipologia) (((m : ℚ) + 1) / (p.prazo_obra : ℚ)) / 100 -
    interpolarCurva (curvaOf p.tipologia) ((m : ℚ) / (p.prazo_obra : ℚ)) / 100

/-- The cost arrays (and the IPTU total, accumulated alongside them). -/
structure CustArrays where
  custos : List ℚ
  c_terreno : List ℚ
  c_itbi : List ℚ
  c_iptu : List ℚ
  c_obra_raso : List ℚ
  c_admin_obra : List ℚ
  c_projetos : List ℚ
  c_aprovacoes : List ℚ
  iptu_total : ℚ
deriving DecidableEq

/-- Section 5: the cost schedule.  Each sequential `custos[...] += ...`
block of the source appears as one shadowing `let`. -/
def custosArrays (p : SimParams) : CustArrays :=
  let total := totalMeses p
  let z := zerosQ total
  let lanc := mesLancamento p
  let entrega := mesEntrega p
  -- Terreno: mês 0
  let valor_terreno := p.vgv * p.terreno_pct_vgv
  let custos := if 0 < total then addAt z 0 valor_terreno else z
  let c_terreno := if 0 < total then addAt z 0 valor_terreno else z
  -- ITBI sobre terreno
  let itbi_valor := valor_terreno * p.itbi_pct
  let custos := if 0 < total then addAt custos 0 itbi_valor else custos
  let c_itbi := if 0 < total then addAt z 0 itbi_valor else z
  -- Projetos e aprovações
  let valor_projetos := p.vgv * p.projetos_pct
  let valor_aprovacoes := p.vgv * p.aprovacoes_pct
  let projPairs :=
    (pyRange 0 (min p.prazo_registro total)).map
      (fun m => (m, valor_projetos / (p.prazo_registro : ℚ)))
  let (custos, c_projetos, c_aprovacoes) :=
    if 0 < p.prazo_registro then
      let idx := min (p.prazo_registro - 1) (total - 1)
      (addAt (addPairs custos projPairs) idx valor_aprovacoes,
        addPairs z projPairs,
        addAt z idx valor_aprovacoes)
    else if 0 < total then
      (addAt custos 0 (valor_projetos + valor_aprovacoes),
        addAt z 0 valor_projetos,
        addAt z 0 valor_aprovacoes)
    else (custos, z, z)
  -- Construção pela curva de desembolso (o `break` quando
  -- `mes_real >= total_meses` equivale a um filtro, pois `mes_real` cresce)
  let obraIdx := (List.range p.prazo_obra).filter (fun m => lanc + m < total)
  let rasoPairs := obraIdx.map (fun m => (lanc + m, p.custo_construcao_base * deltaDesembolso p m))
  let bdiPairs :=
    obraIdx.map (fun m => (lanc + m, p.custo_construcao_base * p.bdi_pct * deltaDesembolso p m))
  let custos := addPairs custos (rasoPairs.zip bdiPairs |>.map (fun q => (q.1.1, q.1.2 + q.2.2)))
  let c_obra_raso := addPairs z rasoPairs
  let c_admin_obra := addPairs z bdiPairs
  -- IPTU mensal até a entrega
  let (custos, c_iptu, iptu_total) :=
    if 0 < valor_terreno ∧ 0 < p.iptu_pct then
      let iptu_mensal := valor_terreno * p.iptu_pct / 12
      let iptuPairs := (pyRange 0 (min (entrega + 1) total)).map (fun m => (m, iptu_mensal))
      (addPairs custos iptuPairs, addPairs z iptuPairs,
        iptu_mensal * (min (entrega + 1) total : ℚ))
    else (custos, z, 0)
  { custos := custos, c_terreno := c_terreno, c_itbi := c_itbi, c_iptu := c_iptu,
    c_obra_raso := c_obra_raso, c_admin_obra := c_admin_obra,
    c_projetos := c_projetos, c_aprovacoes := c_aprovacoes, iptu_total := iptu_total }

/-!  ## Section 6 of `simular`: expense schedule -/

/-- The expense arrays built by section 6. -/
structure DespArrays where
  despesas : List ℚ
  d_comissoes : List ℚ
  d_premiacao : List ℚ
  d_marketing : List ℚ
  d_stand : List ℚ
  d_coordenacao : List ℚ
  d_admin : List ℚ
  d_gestao : List ℚ
  d_seguros : List ℚ
  d_preop : List ℚ
  d_ri : List ℚ
  d_escrituras : List ℚ
  d_tributaria : List ℚ
deriving DecidableEq

/-- Section 6: the expense schedule, fed the post-bad-debt revenue list for
the tax line.  The per-month `despesas[m] += v_com + v_prem` (and
`+= v_mkt + v_coord`, `+= admin + gestao`) updates are applied as two
consecutive adds at the same index, which yields the same list. -/
def despesasArrays (p : SimParams) (receitasLiq : List ℚ) : DespArrays :=
  let total := totalMeses p
  let z := zerosQ total
  let lanc := mesLancamento p
  let entrega := mesEntrega p
  -- Pré-operacionais: mês 0
  let valor_preop := p.vgv * p.preop_pct
  let despesas := if 0 < total then addAt z 0 valor_preop else z
  let d_preop := if 0 < total then addAt z 0 valor_preop else z
  -- Registro de incorporação / loteamento
  let valor_ri := p.vgv * p.ri_pct
  let (despesas, d_ri) :=
    if 0 < p.prazo_registro ∧ p.prazo_registro < total then
      (addAt despesas (p.prazo_registro - 1) valor_ri, addAt z (p.prazo_registro - 1) valor_ri)
    else if 0 < total then (addAt despesas 0 valor_ri, addAt z 0 valor_ri)
    else (despesas, z)
  -- Comissões e premiação: proporcionais às vendas (brutas) do mês
  let comIdx := (List.range total).filter (fun m => 0 < unidadesVendasFn p m)
  let comPairs := comIdx.map (fun m => (m, p.ticket * unidadesVendasFn p m * p.corretagem_pct))
  let premPairs := comIdx.map (fun m => (m, p.ticket * unidadesVendasFn p m * p.premiacao_pct))
  let despesas := addPairs (addPairs despesas comPairs) premPairs
  let d_comissoes := addPairs z comPairs
  let d_premiacao := addPairs z premPairs
  -- Marketing e coordenação: distribuídos no período de vendas
  let fimVendas := min (entrega + 12) total
  let mesesVendas := max (fimVendas - lanc) 1
  let valor_marketing := p.vgv * p.marketing_pct
  let valor_stand := p.vgv * p.stand_pct
  let valor_coord := p.vgv * p.coordenacao_pct
  let mktPairs := (pyRange lanc (min fimVendas total)).map
    (fun m => (m, valor_marketing / (mesesVendas : ℚ)))
  let coordPairs := (pyRange lanc (min fimVendas total)).map
    (fun m => (m, valor_coord / (mesesVendas : ℚ)))
  let despesas := addPairs (addPairs despesas mktPairs) coordPairs
  let d_marketing := addPairs z mktPairs
  let d_coordenacao := addPairs z coordPairs
  -- Stand: concentrado no lançamento
  let (despesas, d_stand) :=
    if lanc < total then (addAt despesas lanc valor_stand, addAt z lanc valor_stand)
    else (despesas, z)
  -- Administrativas e gestão: mensais ao longo do projeto
  let mesesProjeto := max (entrega + 6) 12
  let adminMensal := p.vgv * p.admin_pct / (mesesProjeto : ℚ)
  let gestaoMensal := p.vgv * p.gestao_pct / (mesesProjeto : ℚ)
  let admPairs := (pyRange 0 (min mesesProjeto total)).map (fun m => (m, adminMensal))
  let gesPairs := (pyRange 0 (min mesesProjeto total)).map (fun m => (m, gestaoMensal))
  let despesas := addPairs (addPairs despesas admPairs) gesPairs
  let d_admin := addPairs z admPairs
  let d_gestao := addPairs z gesPairs
  -- Seguros: uma parcela por ano de projeto
  let valor_seguros := p.vgv * p.seguros_pct
  let anosProjeto := max 1 (mesesProjeto / 12)
  let segPairs :=
    (((List.range anosProjeto).map (fun ano => (ano * 12, valor_seguros / (anosProjeto : ℚ)))).filter
      (fun q => q.1 < total))
  let despesas := addPairs despesas segPairs
  let d_seguros := addPairs z segPairs
  -- Escrituras e registros: na entrega
  let valor_escrituras := p.vgv * p.escrituras_pct
  let (despesas, d_escrituras) :=
    if entrega < total then (addAt despesas entrega valor_escrituras, addAt z entrega valor_escrituras)
    else (despesas, z)
  -- Tributária: alíquota sobre a receita recebida (já líquida de inadimplência)
  let d_tributaria := receitasLiq.map (fun x => x * p.aliquota_trib)
  let despesas := List.zipWith (· + ·) despesas d_tributaria
  { despesas := despesas, d_comissoes := d_comissoes, d_premiacao := d_premiacao,
    d_marketing := d_marketing, d_stand := d_stand, d_coordenacao := d_coordenacao,
    d_admin := d_admin, d_gestao := d_gestao, d_seguros := d_seguros,
    d_preop := d_preop, d_ri := d_ri, d_escrituras := d_escrituras,
    d_tributaria := d_tributaria }

/-!  ## IRR solver (`simulador._calcular_tir`) and helpers -/

/-- The inner NPV/derivative accumulation of Newton-Raphson, including the
`if denom == 0: break` guard. -/
def npvLoop (rate : ℚ) : List ℚ → ℕ → ℚ → ℚ → ℚ × ℚ
  | [], _, npv, dnpv => (npv, dnpv)
  | cf :: rest, t, npv, dnpv =>
      let denom := (1 + rate) ^ t
      if denom = 0 then (npv, dnpv)
      else
        npvLoop rate rest (t + 1) (npv + cf / denom)
          (if 0 < t then dnpv - (t : ℚ) * cf / (1 + rate) ^ (t + 1) else dnpv)

/-- Newton-Raphson iterations (`some rate` on convergence, `none` when the
derivative vanishes or the iteration budget runs out — both fall through
to bisection in the source). -/
def newtonGo (fluxos : List ℚ) (tol : ℚ) : ℕ → ℚ → Option ℚ
  | 0, _ => none
  | fuel + 1, rate =>
      let nd := npvLoop rate fluxos 0 0 0
      if pyAbs nd.1 < tol then some rate
      else if nd.2 = 0 then none
      else
        let rate1 := rate - nd.1 / nd.2
        let rate2 := if rate1 < -(1/2) then rate / 2 else rate1
        let rate3 := if 5 < rate2 then (rate + 5) / 2 else rate2
        newtonGo fluxos tol fuel rate3

/-- NPV as computed inside the bisection fallback (terms with a zero
denominator are skipped by the comprehension's filter). -/
def npvSimples (fluxos : List ℚ) (rate : ℚ) : ℚ :=
  listSum ((fluxos.enum.filter (fun q => (1 + rate) ^ q.1 ≠ 0)).map
    (fun q => q.2 / (1 + rate) ^ q.1))

/-- Bisection fallback over `[-0.5, 5.0]`; always returns an estimate (the
midpoint of the final bracket when the budget runs out). -/
def bisectGo (fluxos : List ℚ) (tol : ℚ) : ℕ → ℚ → ℚ → ℚ
  | 0, low, high => (low + high) / 2
  | fuel + 1, low, high =>
      let mid := (low + high) / 2
      let npv := npvSimples fluxos mid
      if pyAbs npv < tol then mid
      else if 0 < npv then bisectGo fluxos tol fuel mid high
      else bisectGo fluxos tol fuel low mid

/-- `simulador._calcular_tir` with its default `max_iter = 500`,
`tol = 1e-8`: `none` when the flow series has no sign change (the source's
`return None`), otherwise Newton-Raphson from 1% with clamped steps, then
bisection over `[-0.5, 5.0]`. -/
def calcularTir (fluxos : List ℚ) : Option ℚ :=
  let temPositivo := fluxos.any (fun f => decide (0 < f))
  let temNegativo := fluxos.any (fun f => decide (f < 0))
  if temPositivo ∧ temNegativo then
    some (match newtonGo fluxos (1 / 10 ^ 8) 500 (1 / 100) with
      | some rate => rate
      | none => bisectGo fluxos (1 / 10 ^ 8) 500 (-(1/2)) 5)
  else none

/-- `simulador._calcular_vpl`. -/
def calcularVpl (fluxos : List ℚ) (taxa_mensal : ℚ) : ℚ :=
  listSum (fluxos.enum.map (fun q => q.2 / (1 + taxa_mensal) ^ q.1))

/-- The trailing near-zero trim before the IRR call
(`while len > 2 and abs(last) < 0.01: pop`), fueled by the list length. -/
def trimTirGo : ℕ → List ℚ → List ℚ
  | 0, l => l
  | fuel + 1, l =>
      if 2 < l.length ∧ pyAbs (l.getLastD 0) < 1 / 100 then trimTirGo fuel l.dropLast
      else l

/-- The flow list actually handed to `_calcular_tir`. -/
def trimTir (l : List ℚ) : List ℚ := trimTirGo l.length l

/-- The payback loop: index of the first strictly positive entry, or
`total` when the `for` loop falls through to its `else`. -/
def paybackCalc : List ℚ → ℕ → ℕ → ℕ
  | [], _, total => total
  | x :: xs, m, total => if 0 < x then m else paybackCalc xs (m + 1) total

/-!  ## `ResultadoSimulacao` -/

/-- `simulador.ResultadoSimulacao`, with the dataclass's zero/empty
defaults. -/
structure ResultadoSimulacao where
  vgv : ℚ := 0
  num_unidades_liquidas : ℚ := 0
  vgv_cancelado : ℚ := 0
  receita_bruta : ℚ := 0
  receita_liquida : ℚ := 0
  receita_entrada : ℚ := 0
  receita_parcelas : ℚ := 0
  receita_intermediarias : ℚ := 0
  valor_inadimplencia : ℚ := 0
  valor_distrato : ℚ := 0
  impostos_total : ℚ := 0
  custo_total : ℚ := 0
  custo_obra_total : ℚ := 0
  custo_obra_raso : ℚ := 0
  custo_admin_obra : ℚ := 0
  custo_projetos : ℚ := 0
  custo_aprovacoes : ℚ := 0
  custo_terreno_total : ℚ := 0
  custo_terreno_aquisicao : ℚ := 0
  custo_itbi : ℚ := 0
  custo_iptu : ℚ := 0
  despesa_total : ℚ := 0
  despesa_comercial : ℚ := 0
  desp_comissoes : ℚ := 0
  desp_premiacao : ℚ := 0
  desp_stand : ℚ := 0
  desp_coordenacao : ℚ := 0
  desp_marketing : ℚ := 0
  despesa_administrativa : ℚ := 0
  desp_admin : ℚ := 0
  desp_gestao : ℚ := 0
  desp_seguros : ℚ := 0
  desp_preop : ℚ := 0
  despesa_cartorial : ℚ := 0
  desp_ri : ℚ := 0
  desp_escrituras : ℚ := 0
  despesa_tributaria : ℚ := 0
  atividades_operacionais : ℚ := 0
  resultado_projeto : ℚ := 0
  margem_vgv : ℚ := 0
  margem_custo : ℚ := 0
  margem_receita_liq : ℚ := 0
  tir_mensal : ℚ := 0
  tir_anual : ℚ := 0
  vpl : ℚ := 0
  payback_meses : ℕ := 0
  exposicao_maxima : ℚ := 0
  lucro_sobre_investimento : ℚ := 0
  total_meses : ℕ := 0
  fluxo_mensal : List ℚ := []
  fluxo_acumulado : List ℚ := []
  receitas_mensais : List ℚ := []
  custos_mensais : List ℚ := []
  despesas_mensais : List ℚ := []
  vendas_unidades_mensal : List ℚ := []
  vendas_unidades_acum_mensal : List ℚ := []
  vgv_vendido_mensal : List ℚ := []
  rec_entrada_mensal : List ℚ := []
  rec_parcelas_mensal : List ℚ := []
  rec_intermediarias_mensal : List ℚ := []
  inadimplencia_mensal : List ℚ := []
  receita_bruta_mensal : List ℚ := []
  impostos_mensal : List ℚ := []
  distratos_mensal : List ℚ := []
  custo_terreno_aquisicao_mensal : List ℚ := []
  custo_itbi_mensal : List ℚ := []
  custo_iptu_mensal : List ℚ := []
  custo_obra_raso_mensal : List ℚ := []
  custo_admin_obra_mensal : List ℚ := []
  custo_projetos_mensal : List ℚ := []
  custo_aprovacoes_mensal : List ℚ := []
  desp_comissoes_mensal : List ℚ := []
  desp_premiacao_mensal : List ℚ := []
  desp_marketing_mensal : List ℚ := []
  desp_stand_mensal : List ℚ := []
  desp_coordenacao_mensal : List ℚ := []
  desp_admin_mensal : List ℚ := []
  desp_gestao_mensal : List ℚ := []
  desp_seguros_mensal : List ℚ := []
  desp_preop_mensal : List ℚ := []
  desp_ri_mensal : List ℚ := []
  desp_escrituras_mensal : List ℚ := []
  desp_tributaria_mensal : List ℚ := []
  atividades_operacionais_mensal : List ℚ := []
  saldo_caixa_mensal : List ℚ := []
deriving DecidableEq

/-- Property alias `custo_construcao_infra` (used by the diagnostic). -/
def ResultadoSimulacao.custo_construcao_infra (s : ResultadoSimulacao) : ℚ :=
  s.custo_obra_raso

/-- Property alias `custo_terreno`. -/
def ResultadoSimulacao.custo_terreno (s : ResultadoSimulacao) : ℚ :=
  s.custo_terreno_aquisicao

/-- Property alias `custo_bdi`. -/
def ResultadoSimulacao.custo_bdi (s : ResultadoSimulacao) : ℚ :=
  s.custo_admin_obra

/-!  ## `simular` -/

/-- `simulador.simular`.  One deliberate gap: the source derives the NPV's
monthly discount rate as `(1 + tma_anual) ** (1/12) - 1`, a real 12th
root with no rational value, so the `vpl` field is left at its dataclass
default here; no claim below concerns `vpl` as produced by `simular`
(`_calcular_vpl` itself is embedded above). -/
def simular (r : ResultadoPremissas) : ResultadoSimulacao :=
  let p := mkParams r
  if p.vgv ≤ 0 then { vgv := p.vgv }
  else
    let total := totalMeses p
    let fator := fatorLiquido p
    let unid := unidadesVendas p
    let vendas_un_mensal := unid.map (fun u => u * fator)
    let vendas_un_acum := cumsumFrom 0 vendas_un_mensal
    let vgv_vendido := vendas_un_mensal.map (fun u => p.ticket * u)
    let rv := revArrays p
    let receita_bruta_total := listSum rv.receitas
    let inad_m := rv.receitas.map (fun x => x * p.inadimplencia_pct)
    let receitasLiq := rv.receitas.map (fun x => x * (1 - p.inadimplencia_pct))
    let receita_liquida := listSum receitasLiq
    let cu := custosArrays p
    let custo_total := listSum cu.custos
    let de := despesasArrays p receitasLiq
    let despesa_total := listSum de.despesas
    let fluxo_mensal :=
      List.zipWith (fun x y => x - y) (List.zipWith (fun x y => x - y) receitasLiq cu.custos)
        de.despesas
    let fluxo_acumulado := cumsumFrom 0 fluxo_mensal
    let resultado_projeto := receita_liquida - custo_total - despesa_total
    let exposicao := if fluxo_acumulado.isEmpty then 0 else listMin fluxo_acumulado
    let tir := calcularTir (trimTir fluxo_mensal)
    let valor_terreno := p.vgv * p.terreno_pct_vgv
    let itbi_valor := valor_terreno * p.itbi_pct
    let valor_projetos := p.vgv * p.projetos_pct
    let valor_aprovacoes := p.vgv * p.aprovacoes_pct
    let desp_comissoes := p.vgv * p.corretagem_pct
    let desp_premiacao := p.vgv * p.premiacao_pct
    let desp_stand := p.vgv * p.stand_pct
    let desp_coordenacao := p.vgv * p.coordenacao_pct
    let desp_marketing := p.vgv * p.marketing_pct
    let desp_admin := p.vgv * p.admin_pct
    let desp_gestao := p.vgv * p.gestao_pct
    let desp_seguros := p.vgv * p.seguros_pct
    let valor_preop := p.vgv * p.preop_pct
    let valor_ri := p.vgv * p.ri_pct
    let valor_escrituras := p.vgv * p.escrituras_pct
    let despesa_tributaria := receita_liquida * p.aliquota_trib
    { vgv := p.vgv
      num_unidades_liquidas := (p.num_unidades : ℚ) * fator
      vgv_cancelado := p.vgv * p.distrato_pct
      receita_bruta := receita_bruta_total
      receita_liquida := receita_liquida
      receita_entrada := listSum rv.rec_entrada
      receita_parcelas := listSum rv.rec_parcelas
      receita_intermediarias := listSum rv.rec_intermediarias
      valor_inadimplencia := receita_bruta_total * p.inadimplencia_pct
      valor_distrato := p.vgv * p.distrato_pct
      impostos_total := despesa_tributaria
      custo_total := custo_total
      custo_obra_total :=
        p.custo_construcao_base + p.custo_construcao_base * p.bdi_pct + valor_projetos +
          valor_aprovacoes
      custo_obra_raso := p.custo_construcao_base
      custo_admin_obra := p.custo_construcao_base * p.bdi_pct
      custo_projetos := valor_projetos
      custo_aprovacoes := valor_aprovacoes
      custo_terreno_total := valor_terreno + itbi_valor + cu.iptu_total
      custo_terreno_aquisicao := valor_terreno
      custo_itbi := itbi_valor
      custo_iptu := cu.iptu_total
      despesa_total := despesa_total
      despesa_comercial := desp_comissoes + desp_premiacao + desp_stand + desp_coordenacao
      desp_comissoes := desp_comissoes
      desp_premiacao := desp_premiacao
      desp_stand := desp_stand
      desp_coordenacao := desp_coordenacao
      desp_marketing := desp_marketing
      despesa_administrativa := desp_admin + desp_gestao + desp_seguros + valor_preop
      desp_admin := desp_admin
      desp_gestao := desp_gestao
      desp_seguros := desp_seguros
      desp_preop := valor_preop
      despesa_cartorial := valor_ri + valor_escrituras
      desp_ri := valor_ri
      desp_escrituras := valor_escrituras
      despesa_tributaria := despesa_tributaria
      atividades_operacionais := resultado_projeto
      resultado_projeto := resultado_projeto
      margem_vgv := if 0 < p.vgv then resultado_projeto / p.vgv * 100 else 0
      margem_custo := if 0 < custo_total then resultado_projeto / custo_total * 100 else 0
      margem_receita_liq :=
        if 0 < receita_liquida then resultado_projeto / receita_liquida * 100 else 0
      tir_mensal := match tir with | some t => t * 100 | none => 0
      tir_anual := match tir with | some t => ((1 + t) ^ 12 - 1) * 100 | none => 0
      payback_meses := paybackCalc fluxo_acumulado 0 total
      exposicao_maxima := exposicao
      lucro_sobre_investimento :=
        if exposicao < 0 then resultado_projeto / pyAbs exposicao * 100 else 0
      total_meses := total
      fluxo_mensal := fluxo_mensal
      fluxo_acumulado := fluxo_acumulado
      receitas_mensais := receitasLiq
      custos_mensais := cu.custos
      despesas_mensais := de.despesas
      vendas_unidades_mensal := vendas_un_mensal
      vendas_unidades_acum_mensal := vendas_un_acum
      vgv_vendido_mensal := vgv_vendido
      rec_entrada_mensal := rv.rec_entrada
      rec_parcelas_mensal := rv.rec_parcelas
      rec_intermediarias_mensal := rv.rec_intermediarias
      inadimplencia_mensal := inad_m
      receita_bruta_mensal := rv.receitas
      impostos_mensal := de.d_tributaria
      distratos_mensal := zerosQ total
      custo_terreno_aquisicao_mensal := cu.c_terreno
      custo_itbi_mensal := cu.c_itbi
      custo_iptu_mensal := cu.c_iptu
      custo_obra_raso_mensal := cu.c_obra_raso
      custo_admin_obra_mensal := cu.c_admin_obra
      custo_projetos_mensal := cu.c_projetos
      custo_aprovacoes_mensal := cu.c_aprovacoes
      desp_comissoes_mensal := de.d_comissoes
      desp_premiacao_mensal := de.d_premiacao
      desp_marketing_mensal := de.d_marketing
      desp_stand_mensal := de.d_stand
      desp_coordenacao_mensal := de.d_coordenacao
      desp_admin_mensal := de.d_admin
      desp_gestao_mensal := de.d_gestao
      desp_seguros_mensal := de.d_seguros
      desp_preop_mensal := de.d_preop
      desp_ri_mensal := de.d_ri
      desp_escrituras_mensal := de.d_escrituras
      desp_tributaria_mensal := de.d_tributaria
      atividades_operacionais_mensal := fluxo_mensal
      saldo_caixa_mensal := fluxo_acumulado }

/-!  ## `gerar_diagnostico`

`ItemDiagnostico` keeps the three fields the checks and the ordering
depend on; the four freeform text fields (`descricao`, `premissa_atual`,
`benchmark`, `sugestao`) are number-formatted presentation strings and
are omitted. -/

/-- `simulador.ItemDiagnostico` (structural fields only, see above). -/
structure ItemDiagnostico where
  categoria : String
  severidade : String
  titulo : String
deriving DecidableEq

/-- The sort key `ordem.get(severidade, 1)` of the final ordering. -/
def ordemSeveridade (s : String) : ℕ :=
  if s = "critico" then 0 else if s = "atencao" then 1 else if s = "positivo" then 2 else 1

/-- The check battery of `gerar_diagnostico`, in source order (the list the
source builds with successive `itens.append(...)` before sorting).
Benchmark constants that appear only inside message strings
(`bench_vel`, `custo_mais_desp_pct`, ...) are not needed here. -/
def diagItens (r : ResultadoPremissas) (sim : ResultadoSimulacao) : List ItemDiagnostico :=
  let eLot := r.inputs.tipologia = Tipologia.LOTEAMENTO
  let vgv := sim.vgv
  -- 1. receita
  let distrato := getPremissaValor r "Taxa de distrato estimada" 0
  let bench_distrato : ℚ := if eLot then 12 else 8
  let limite_alto : ℚ := if eLot then 18 else 15
  let itensDistrato :=
    if limite_alto < distrato then
      [ItemDiagnostico.mk "receita" "critico" "Distrato muito elevado"]
    else if bench_distrato < distrato then
      [ItemDiagnostico.mk "receita" "atencao" "Distrato acima do padrão"]
    else []
  let inadimplencia := getPremissaValor r "Taxa de inadimplência estimada" 0
  let bench_inadimp : ℚ := if eLot then 15 else 5
  let limite_alto_inadimp : ℚ := if eLot then 25 else 10
  let itensInadimp :=
    if limite_alto_inadimp < inadimplencia then
      [ItemDiagnostico.mk "receita" "critico" "Inadimplência muito elevada"]
    else if bench_inadimp < inadimplencia then
      [ItemDiagnostico.mk "receita" "atencao" "Inadimplência acima do padrão"]
    else []
  let velocidade := getPremissaValor r "Velocidade de vendas" 0
  let itensVelocidade :=
    if velocidade < 2 then
      [ItemDiagnostico.mk "receita" "critico" "Velocidade de vendas muito baixa"]
    else []
  let vendas_lanc := getPremissaValor r "Vendas no lançamento" 0
  let itensVendasLanc :=
    if vendas_lanc < 25 then
      [ItemDiagnostico.mk "receita" "atencao" "Baixa concentração de vendas no lançamento"]
    else []
  -- 2. custo
  let terreno_pct := getPremissaValor r "Custo do terreno (% VGV)" 0
  let itensTerreno :=
    if 22 < terreno_pct then
      [ItemDiagnostico.mk "custo" "critico" "Custo do terreno excessivo"]
    else if 18 < terreno_pct then
      [ItemDiagnostico.mk "custo" "atencao" "Custo do terreno elevado"]
    else []
  let custo_constr_pct := if 0 < vgv then sim.custo_construcao_infra / vgv * 100 else 0
  let bench_construcao : ℚ := if eLot then 35 else 40
  let rotulo := if eLot then "infraestrutura" else "construção"
  let itensConstrucao :=
    if bench_construcao * (13/10) < custo_constr_pct then
      [ItemDiagnostico.mk "custo" "critico" ("Custo de " ++ rotulo ++ " muito elevado")]
    else if bench_construcao < custo_constr_pct then
      [ItemDiagnostico.mk "custo" "atencao" ("Custo de " ++ rotulo ++ " acima do padrão")]
    else []
  let bdi := getPremissaValor r "Taxa de administração de obra (BDI)" 0
  let itensBdi :=
    if 20 < bdi then [ItemDiagnostico.mk "custo" "atencao" "BDI elevado"] else []
  -- 3. despesa
  let total_comercial_pct := if 0 < vgv then sim.despesa_comercial / vgv * 100 else 0
  let itensComercial :=
    if 12 < total_comercial_pct then
      [ItemDiagnostico.mk "despesa" "critico" "Despesas comerciais excessivas"]
    else if 9 < total_comercial_pct then
      [ItemDiagnostico.mk "despesa" "atencao" "Despesas comerciais acima do padrão"]
    else []
  let aliquota := getPremissaValor r "Alíquota tributária (regime sugerido)" 0
  let itensAliquota :=
    if 6 ≤ aliquota then
      [ItemDiagnostico.mk "despesa" "atencao" "Carga tributária elevada"]
    else []
  let admin_pct := getPremissaValor r "Despesas administrativas" 0
  let gestao_pct := getPremissaValor r "Taxa de gestão do empreendimento" 0
  let itensAdm :=
    if 6 < admin_pct + gestao_pct then
      [ItemDiagnostico.mk "despesa" "atencao" "Despesas administrativas elevadas"]
    else []
  -- 4. financeiro
  let tma := getPremissaValor r "Taxa Mínima de Atratividade (TMA)" 0
  let itensTma :=
    if 18 < tma ∧ sim.vpl < 0 then
      [ItemDiagnostico.mk "financeiro" "atencao" "TMA muito conservadora"]
    else []
  -- 5. tese
  let itensMargem :=
    if sim.margem_vgv < 10 then
      if bench_construcao < custo_constr_pct ∧ 18 < terreno_pct then
        [ItemDiagnostico.mk "tese" "critico" "Relação custo/receita desfavorável"]
      else if 20 < terreno_pct then
        [ItemDiagnostico.mk "tese" "critico" "Terreno compromete a viabilidade"]
      else [ItemDiagnostico.mk "tese" "atencao" "Margem apertada"]
    else []
  let prazo_obra := natPremissa r "Prazo de obra estimado" 24
  let prazo_total_ref := prazo_obra + 12
  let itensPayback :=
    if (prazo_total_ref : ℚ) * (3/2) < (sim.payback_meses : ℚ) ∧
        sim.payback_meses < sim.total_meses then
      [ItemDiagnostico.mk "tese" "atencao" "Payback longo"]
    else []
  let exposicao_pct_vgv := if 0 < vgv then pyAbs sim.exposicao_maxima / vgv * 100 else 0
  let itensExposicao :=
    if 50 < exposicao_pct_vgv then
      [ItemDiagnostico.mk "financeiro" "critico" "Exposição máxima muito alta"]
    else if 35 < exposicao_pct_vgv then
      [ItemDiagnostico.mk "financeiro" "atencao" "Exposição de caixa elevada"]
    else []
  -- 6. pontos positivos
  let itensPos1 :=
    if 20 ≤ sim.margem_vgv then [ItemDiagnostico.mk "tese" "positivo" "Margem saudável"] else []
  let itensPos2 :=
    if 20 ≤ sim.tir_anual then [ItemDiagnostico.mk "financeiro" "positivo" "TIR atrativa"] else []
  let itensPos3 :=
    if terreno_pct ≤ 12 then
      [ItemDiagnostico.mk "custo" "positivo" "Terreno com boa relação custo/VGV"]
    else []
  let itensPos4 :=
    if 40 ≤ vendas_lanc then
      [ItemDiagnostico.mk "receita" "positivo" "Boa concentração de vendas no lançamento"]
    else []
  itensDistrato ++ itensInadimp ++ itensVelocidade ++ itensVendasLanc ++ itensTerreno ++
    itensConstrucao ++ itensBdi ++ itensComercial ++ itensAliquota ++ itensAdm ++ itensTma ++
    itensMargem ++ itensPayback ++ itensExposicao ++ itensPos1 ++ itensPos2 ++ itensPos3 ++
    itensPos4

/-- The lexicographic (severity rank, original position) order used to
render Python's stable `itens.sort(key=lambda x: ordem.get(x.severidade, 1))`
as decorate–sort–undecorate. -/
def diagRel (a b : ℕ × ItemDiagnostico) : Prop :=
  ordemSeveridade a.2.severidade < ordemSeveridade b.2.severidade ∨
    (ordemSeveridade a.2.severidade = ordemSeveridade b.2.severidade ∧ a.1 ≤ b.1)

instance : DecidableRel diagRel := fun a b => by
  unfold diagRel; infer_instance

instance : IsTotal (ℕ × ItemDiagnostico) diagRel :=
  ⟨fun a b => by unfold diagRel; omega⟩

instance : IsTrans (ℕ × ItemDiagnostico) diagRel :=
  ⟨fun a b c hab hbc => by unfold diagRel at *; omega⟩

/-- Python's `list.sort` is a stable sort; pairing each item with its
position and sorting by `diagRel` (total and transitive) computes exactly
that. -/
def sortEstavel (l : List ItemDiagnostico) : List ItemDiagnostico :=
  (List.insertionSort diagRel l.enum).map Prod.snd

/-- `simulador.gerar_diagnostico`: empty for a non-positive sales value,
otherwise the check battery sorted by severity (critical, attention,
positive), stably. -/
def gerar_diagnostico (r : ResultadoPremissas) (sim : ResultadoSimulacao) :
    List ItemDiagnostico :=
  if sim.vgv ≤ 0 then [] else sortEstavel (diagItens r sim)

/-!  # Helper lemmas -/

theorem mkParams_tipologia (r : ResultadoPremissas) :
    (mkParams r).tipologia = r.inputs.tipologia := rfl

theorem mkParams_vgv (r : ResultadoPremissas) :
    (mkParams r).vgv = getPremissaValor r "VGV estimado" 0 := rfl

theorem simular_eq_zero_record (r : ResultadoPremissas)
    (h : getPremissaValor r "VGV estimado" 0 ≤ 0) :
    simular r = { vgv := getPremissaValor r "VGV estimado" 0 } := by
  simp only [simular]
  rw [if_pos (show (mkParams r).vgv ≤ 0 from h)]
  rfl

theorem simular_of_vgv_pos (r : ResultadoPremissas)
    (hv : 0 < getPremissaValor r "VGV estimado" 0) :
    (simular r).total_meses = totalMeses (mkParams r) := by
  simp only [simular]
  rw [if_neg (show ¬(mkParams r).vgv ≤ 0 from not_le.mpr hv)]

/-!  # C3 — missing-assumption handling -/

/-- Concrete input for C3: an empty assumption set. -/
def rC3 : ResultadoPremissas :=
  { inputs := { tipologia := Tipologia.INCORPORACAO_VERTICAL, num_unidades := 10,
                area_terreno_m2 := none },
    premissas := [], tabela_vendas := none, tabela_vendas_loteamento := none }

/-- C3 counterexample: with no assumptions at all, the lookup of
"VGV estimado" finds nothing, yet no error of any kind is surfaced — the
lookup silently yields the default 0 and `simular` returns a normal
(zero) result. -/
theorem C3_counterexample :
    getPremissa rC3 "VGV estimado" = none ∧
      getPremissaValor rC3 "VGV estimado" 0 = 0 ∧
      (simular rC3).vgv = 0 ∧ (simular rC3).total_meses = 0 := by
  refine ⟨rfl, rfl, rfl, rfl⟩

/-- C3 amended: for any absent assumption the engine substitutes the
caller-supplied default (0 in the source's signature) with no error. -/
theorem C3_silent_default (r : ResultadoPremissas) (nome : String) (dflt : ℚ)
    (h : getPremissa r nome = none) : getPremissaValor r nome dflt = dflt := by
  unfold getPremissaValor
  rw [h]

/-- Witness for `C3_silent_default` at the concrete empty input. -/
theorem C3_silent_default_witness :
    getPremissa rC3 "VGV estimado" = none ∧ getPremissaValor rC3 "VGV estimado" 0 = 0 :=
  ⟨rfl, C3_silent_default rC3 "VGV estimado" 0 rfl⟩

/-!  # C6 — non-positive sales value short-circuit -/

/-- C6: a non-positive target sales value makes `simular` return the
all-default record (every indicator 0, every monthly array empty) with
only `vgv` carrying the input value, and makes the diagnostic engine
produce no findings for any result with `vgv ≤ 0`. -/
theorem C6_vgv_nonpos_zero_result (r : ResultadoPremissas) :
    (getPremissaValor r "VGV estimado" 0 ≤ 0 →
      (simular r).vgv = getPremissaValor r "VGV estimado" 0 ∧
      (simular r).receita_bruta = 0 ∧ (simular r).receita_liquida = 0 ∧
      (simular r).custo_total = 0 ∧ (simular r).despesa_total = 0 ∧
      (simular r).resultado_projeto = 0 ∧ (simular r).margem_vgv = 0 ∧
      (simular r).margem_custo = 0 ∧ (simular r).tir_mensal = 0 ∧
      (simular r).tir_anual = 0 ∧ (simular r).vpl = 0 ∧
      (simular r).payback_meses = 0 ∧ (simular r).exposicao_maxima = 0 ∧
      (simular r).lucro_sobre_investimento = 0 ∧ (simular r).total_meses = 0 ∧
      (simular r).fluxo_mensal = [] ∧ (simular r).fluxo_acumulado = [] ∧
      (simular r).receitas_mensais = [] ∧ (simular r).custos_mensais = [] ∧
      (simular r).despesas_mensais = [] ∧ (simular r).receita_bruta_mensal = [] ∧
      (simular r).vendas_unidades_mensal = []) ∧
    ∀ sim : ResultadoSimulacao, sim.vgv ≤ 0 → gerar_diagnostico r sim = [] := by
  constructor
  · intro h
    rw [simular_eq_zero_record r h]
    exact ⟨rfl, rfl, rfl, rfl, rfl, rfl, rfl, rfl, rfl, rfl, rfl, rfl, rfl, rfl, rfl,
      rfl, rfl, rfl, rfl, rfl, rfl, rfl⟩
  · intro sim h
    unfold gerar_diagnostico
    rw [if_pos h]

/-- Concrete input for C6: the target sales value assumption is 0. -/
def rC6 : ResultadoPremissas :=
  { inputs := { tipologia := Tipologia.LOTEAMENTO, num_unidades := 50,
                area_terreno_m2 := some 10000 },
    premissas := [{ nome := "VGV estimado", valor := 0 }],
    tabela_vendas := none, tabela_vendas_loteamento := none }

/-- Witness for `C6_vgv_nonpos_zero_result` at `rC6` (sales value 0). -/
theorem C6_vgv_nonpos_zero_result_witness :
    getPremissaValor rC6 "VGV estimado" 0 ≤ 0 ∧
      (simular rC6).vgv = getPremissaValor rC6 "VGV estimado" 0 ∧
      (simular rC6).total_meses = 0 ∧
      gerar_diagnostico rC6 (simular rC6) = [] := by
  have h : getPremissaValor rC6 "VGV estimado" 0 ≤ 0 := by norm_num [getPremissaValor, getPremissa, rC6]
  have hmain := C6_vgv_nonpos_zero_result rC6
  refine ⟨h, (hmain.1 h).1, ?_, ?_⟩
  · exact (hmain.1 h).2.2.2.2.2.2.2.2.2.2.2.2.2.2.1
  · exact hmain.2 (simular rC6) (((hmain.1 h).1).le.trans h |>.trans_eq rfl)

/-!  # C8 — horizon formula -/

/-- C8 amended: with a positive sales value, the horizon is the phase sum
*floored at 36* (`max (registro + obra + tail) 36`): 24-month tail for
non-loteamento typologies, and for loteamento `num_parcelas + 12` capped
so the total never exceeds 300. -/
theorem C8_total_meses_formula (r : ResultadoPremissas)
    (hv : 0 < getPremissaValor r "VGV estimado" 0) :
    (r.inputs.tipologia ≠ Tipologia.LOTEAMENTO →
      (simular r).total_meses =
        max ((mkParams r).prazo_registro + (mkParams r).prazo_obra + 24) 36) ∧
    (r.inputs.tipologia = Tipologia.LOTEAMENTO →
      (simular r).total_meses =
        max (min ((mkParams r).prazo_registro + (mkParams r).prazo_obra +
          (mkParams r).lot.num_parcelas + 12) 300) 36 ∧
      (simular r).total_meses ≤ 300) ∧
    36 ≤ (simular r).total_meses := by
  have hs := simular_of_vgv_pos r hv
  refine ⟨fun htip => ?_, fun htip => ⟨?_, ?_⟩, ?_⟩
  · rw [hs]
    unfold totalMeses posObraMeses
    rw [if_neg (by rw [mkParams_tipologia]; exact htip)]
    omega
  · rw [hs]
    unfold totalMeses posObraMeses
    rw [if_pos (by rw [mkParams_tipologia]; exact htip)]
    omega
  · rw [hs]
    unfold totalMeses posObraMeses
    rw [if_pos (by rw [mkParams_tipologia]; exact htip)]
    omega
  · rw [hs]
    unfold totalMeses posObraMeses
    by_cases htip : (mkParams r).tipologia = Tipologia.LOTEAMENTO
    · rw [if_pos htip]; omega
    · rw [if_neg htip]; omega

/-- Concrete input for C8: registration 0 months, construction 2 months,
non-loteamento (phase sum 26, below the 36 floor). -/
def rC8 : ResultadoPremissas :=
  { inputs := { tipologia := Tipologia.INCORPORACAO_VERTICAL, num_unidades := 10,
                area_terreno_m2 := none },
    premissas := [{ nome := "VGV estimado", valor := 100 },
      { nome := "Prazo para Registro de Incorporação/Loteamento", valor := 0 },
      { nome := "Prazo de obra estimado", valor := 2 }],
    tabela_vendas := none, tabela_vendas_loteamento := none }

/-- C8 counterexample: at `rC8` the phase sum is 0 + 2 + 24 = 26 but
`total_meses` is 36, so the claimed equality
`total_meses = registro + obra + tail` fails (the floor at 36 wins). -/
theorem C8_counterexample :
    (simular rC8).total_meses = 36 ∧
      (mkParams rC8).prazo_registro + (mkParams rC8).prazo_obra + 24 = 26 ∧
      (36 : ℕ) ≠ 26 := by
  refine ⟨?_, ?_, by decide⟩ <;> rfl

/-- Witness for `C8_total_meses_formula` at `rC8`. -/
theorem C8_total_meses_formula_witness :
    0 < getPremissaValor rC8 "VGV estimado" 0 ∧
      (simular rC8).total_meses =
        max ((mkParams rC8).prazo_registro + (mkParams rC8).prazo_obra + 24) 36 :=
  ⟨by norm_num [getPremissaValor, getPremissa, rC8],
    (C8_total_meses_formula rC8
      (by norm_num [getPremissaValor, getPremissa, rC8])).1 (by decide)⟩

/-!  # C7 — payback month -/

theorem paybackCalc_le (l : List ℚ) (m total k : ℕ) (hk : k < l.length)
    (hpos : 0 < l.getD k 0) : paybackCalc l m total ≤ m + k := by
  induction l generalizing m k with
  | nil => simp at hk
  | cons x xs ih =>
    unfold paybackCalc
    by_cases hx : 0 < x
    · rw [if_pos hx]; omega
    · rw [if_neg hx]
      cases k with
      | zero => rw [List.getD_cons_zero] at hpos; exact absurd hpos hx
      | succ k' =>
        have := ih (m + 1) k' (by simpa using hk) (by simpa using hpos)
        omega

theorem paybackCalc_found (l : List ℚ) (m total : ℕ) (h : ∃ x ∈ l, 0 < x) :
    ∃ k, paybackCalc l m total = m + k ∧ k < l.length ∧ 0 < l.getD k 0 := by
  induction l generalizing m with
  | nil => simp at h
  | cons x xs ih =>
    by_cases hx : 0 < x
    · exact ⟨0, by unfold paybackCalc; rw [if_pos hx]; omega, by simp, by simpa⟩
    · have h' : ∃ y ∈ xs, 0 < y := by
        rcases h with ⟨y, hy, hy0⟩
        rcases List.mem_cons.mp hy with rfl | hmem
        · exact absurd hy0 hx
        · exact ⟨y, hmem, hy0⟩
      rcases ih (m + 1) h' with ⟨k, hk1, hk2, hk3⟩
      refine ⟨k + 1, ?_, by simp; omega, by simpa using hk3⟩
      unfold paybackCalc
      rw [if_neg hx]
      omega

theorem paybackCalc_none (l : List ℚ) (m total : ℕ) (h : ∀ x ∈ l, x ≤ 0) :
    paybackCalc l m total = total := by
  induction l generalizing m with
  | nil => rfl
  | cons x xs ih =>
    unfold paybackCalc
    rw [if_neg (not_lt.mpr (h x (List.mem_cons_self x xs)))]
    exact ih (m + 1) fun y hy => h y (List.mem_cons_of_mem _ hy)

theorem simular_payback_eq (r : ResultadoPremissas) :
    (simular r).payback_meses =
      paybackCalc (simular r).fluxo_acumulado 0 (simular r).total_meses := by
  simp only [simular]
  split
  · rfl
  · rfl

/-- C7: `payback_meses` is the index of the first month whose cumulative
flow is strictly positive (no earlier index is positive, and the index
itself is), and when the cumulative flow never turns positive it equals
`total_meses` exactly. -/
theorem C7_payback_first_positive (r : ResultadoPremissas) :
    (∀ k, k < (simular r).fluxo_acumulado.length →
      0 < (simular r).fluxo_acumulado.getD k 0 → (simular r).payback_meses ≤ k) ∧
    ((∃ x ∈ (simular r).fluxo_acumulado, 0 < x) →
      (simular r).payback_meses < (simular r).fluxo_acumulado.length ∧
      0 < (simular r).fluxo_acumulado.getD (simular r).payback_meses 0) ∧
    ((∀ x ∈ (simular r).fluxo_acumulado, x ≤ 0) →
      (simular r).payback_meses = (simular r).total_meses) := by
  refine ⟨fun k hk hpos => ?_, fun hex => ?_, fun hall => ?_⟩
  · rw [simular_payback_eq]
    have := paybackCalc_le (simular r).fluxo_acumulado 0 (simular r).total_meses k hk hpos
    omega
  · rcases paybackCalc_found (simular r).fluxo_acumulado 0 (simular r).total_meses hex with
      ⟨k, h1, h2, h3⟩
    rw [simular_payback_eq, h1]
    simp only [Nat.zero_add]
    exact ⟨h2, h3⟩
  · rw [simular_payback_eq]
    exact paybackCalc_none _ _ _ hall

/-- Concrete input for the C7 witness: positive sales value but zero
ticket, so every monthly flow is 0 and the cumulative flow never turns
positive. -/
def rC7 : ResultadoPremissas :=
  { inputs := { tipologia := Tipologia.INCORPORACAO_VERTICAL, num_unidades := 10,
                area_terreno_m2 := none },
    premissas := [{ nome := "VGV estimado", valor := 100 }],
    tabela_vendas := none, tabela_vendas_loteamento := none }

unseal Rat.add Rat.mul Rat.inv Rat.sub in
/-- Witness for `C7_payback_first_positive`: at `rC7` the cumulative flow
never turns positive and `payback_meses = total_meses`. -/
theorem C7_payback_first_positive_witness :
    (∀ x ∈ (simular rC7).fluxo_acumulado, x ≤ 0) ∧
      (simular rC7).payback_meses = (simular rC7).total_meses :=
  ⟨by decide, (C7_payback_first_positive rC7).2.2 (by decide)⟩

/-!  # C1 — peak exposure -/

theorem foldl_min_le_init (xs : List ℚ) (a : ℚ) : xs.foldl min a ≤ a := by
  induction xs generalizing a with
  | nil => simp
  | cons x xs ih => exact le_trans (ih (min a x)) (min_le_left a x)

theorem foldl_min_le_of_mem (xs : List ℚ) (a : ℚ) : ∀ x ∈ xs, xs.foldl min a ≤ x := by
  induction xs generalizing a with
  | nil => simp
  | cons y ys ih =>
    intro x hx
    rcases List.mem_cons.mp hx with rfl | hmem
    · exact le_trans (foldl_min_le_init ys (min a x)) (min_le_right a x)
    · exact ih (min a y) x hmem

theorem foldl_min_mem (xs : List ℚ) (a : ℚ) : xs.foldl min a ∈ a :: xs := by
  induction xs generalizing a with
  | nil => simp
  | cons y ys ih =>
    show List.foldl min (min a y) ys ∈ a :: y :: ys
    rcases List.mem_cons.mp (ih (min a y)) with heq | hmem
    · rcases min_choice a y with h | h
      · rw [heq, h]; exact List.mem_cons_self a _
      · rw [heq, h]; exact List.mem_cons.mpr (Or.inr (List.mem_cons_self y ys))
    · exact List.mem_cons.mpr (Or.inr (List.mem_cons_of_mem y hmem))

theorem listMin_le_of_mem (l : List ℚ) : ∀ x ∈ l, listMin l ≤ x := by
  cases l with
  | nil => simp
  | cons y ys =>
    intro x hx
    rcases List.mem_cons.mp hx with rfl | hmem
    · exact foldl_min_le_init ys x
    · exact foldl_min_le_of_mem ys y x hmem

theorem listMin_mem (l : List ℚ) (h : l ≠ []) : listMin l ∈ l := by
  cases l with
  | nil => exact absurd rfl h
  | cons y ys => exact foldl_min_mem ys y

theorem simular_exposicao_eq (r : ResultadoPremissas) :
    (simular r).exposicao_maxima =
      if (simular r).fluxo_acumulado.isEmpty then 0
      else listMin (simular r).fluxo_acumulado := by
  simp only [simular]
  split
  · rfl
  · rfl

/-- C1 amended: `exposicao_maxima` is the minimum of the cumulative flow
series whenever that series is nonempty — it is a lower bound and a
member, even when the minimum is positive — and it is 0 only when the
series is empty (the non-positive-VGV early return). -/
theorem C1_exposicao_min (r : ResultadoPremissas) :
    (∀ x ∈ (simular r).fluxo_acumulado, (simular r).exposicao_maxima ≤ x) ∧
    ((simular r).fluxo_acumulado ≠ [] →
      (simular r).exposicao_maxima ∈ (simular r).fluxo_acumulado) ∧
    ((simular r).fluxo_acumulado = [] → (simular r).exposicao_maxima = 0) := by
  have he := simular_exposicao_eq r
  refine ⟨fun x hx => ?_, fun h => ?_, fun h => ?_⟩
  · have hne : (simular r).fluxo_acumulado.isEmpty = false := by
      cases hL : (simular r).fluxo_acumulado with
      | nil => rw [hL] at hx; simp at hx
      | cons y ys => rfl
    rw [he, hne]
    exact listMin_le_of_mem _ x hx
  · have hne : (simular r).fluxo_acumulado.isEmpty = false := by
      cases hL : (simular r).fluxo_acumulado with
      | nil => exact absurd hL h
      | cons y ys => rfl
    rw [he, hne]
    simpa using listMin_mem _ h
  · rw [he, h]
    rfl

/-- Concrete input for the C1 counterexample: only revenue (all cost and
expense assumptions absent, hence 0), so every cumulative flow entry is
positive. -/
def rC1 : ResultadoPremissas :=
  { inputs := { tipologia := Tipologia.INCORPORACAO_VERTICAL, num_unidades := 12,
                area_terreno_m2 := none },
    premissas := [{ nome := "VGV estimado", valor := 1200 },
      { nome := "Ticket médio por unidade", valor := 100 },
      { nome := "Prazo para Registro de Incorporação/Loteamento", valor := 0 },
      { nome := "Prazo de obra estimado", valor := 4 },
      { nome := "Taxa de distrato estimada", valor := 0 },
      { nome := "Taxa de inadimplência estimada", valor := 0 }],
    tabela_vendas := none, tabela_vendas_loteamento := none }

unseal Rat.add Rat.mul Rat.inv Rat.sub in
/-- C1 counterexample: at `rC1` the cumulative flow series is never
negative, yet `exposicao_maxima` is not 0 — the source always takes the
plain minimum, which here is positive. -/
theorem C1_counterexample :
    (∀ x ∈ (simular rC1).fluxo_acumulado, 0 ≤ x) ∧
      (simular rC1).exposicao_maxima ≠ 0 := by
  constructor
  · decide
  · decide

unseal Rat.add Rat.mul Rat.inv Rat.sub in
/-- Witness for `C1_exposicao_min` at `rC7`-style zero flows. -/
theorem C1_exposicao_min_witness :
    (simular rC1).fluxo_acumulado ≠ [] ∧
      (simular rC1).exposicao_maxima ∈ (simular rC1).fluxo_acumulado :=
  ⟨by decide, (C1_exposicao_min rC1).2.1 (by decide)⟩

/-!  # C9 — IRR totality -/

theorem calcularTir_isSome (fluxos : List ℚ) (hp : ∃ f ∈ fluxos, 0 < f)
    (hn : ∃ f ∈ fluxos, f < 0) : ∃ q, calcularTir fluxos = some q := by
  simp only [calcularTir]
  rw [if_pos]
  · exact ⟨_, rfl⟩
  · constructor
    · simp only [List.any_eq_true, decide_eq_true_eq]
      exact hp
    · simp only [List.any_eq_true, decide_eq_true_eq]
      exact hn

theorem calcularTir_eq_none (fluxos : List ℚ)
    (h : (¬∃ f ∈ fluxos, 0 < f) ∨ (¬∃ f ∈ fluxos, f < 0)) :
    calcularTir fluxos = none := by
  simp only [calcularTir]
  rcases h with h | h
  · rw [if_neg]
    intro hc
    exact h (by simpa only [List.any_eq_true, decide_eq_true_eq] using hc.1)
  · rw [if_neg]
    intro hc
    exact h (by simpa only [List.any_eq_true, decide_eq_true_eq] using hc.2)

theorem simular_tir_eq (r : ResultadoPremissas) :
    (simular r).tir_mensal =
      match calcularTir (trimTir (simular r).fluxo_mensal) with
      | some t => t * 100
      | none => 0 := by
  simp only [simular]
  split
  · rfl
  · rfl

/-- C9: the IRR computation is a total function — for a flow series with a
strictly positive and a strictly negative entry it returns a numeric rate
(Newton-Raphson and the 500-step bisection fallback are fuelled
recursions that always produce an estimate), for a series with no sign
change it returns `none` without attempting a solve, and `simular`
reports 0 in that case instead of failing. -/
theorem C9_tir_terminates (fluxos : List ℚ) :
    ((∃ f ∈ fluxos, 0 < f) → (∃ f ∈ fluxos, f < 0) → ∃ q, calcularTir fluxos = some q) ∧
    ((¬∃ f ∈ fluxos, 0 < f) ∨ (¬∃ f ∈ fluxos, f < 0) → calcularTir fluxos = none) ∧
    (∀ r : ResultadoPremissas,
      calcularTir (trimTir (simular r).fluxo_mensal) = none → (simular r).tir_mensal = 0) := by
  refine ⟨calcularTir_isSome fluxos, calcularTir_eq_none fluxos, fun r h => ?_⟩
  rw [simular_tir_eq r, h]

/-- Witness for `C9_tir_terminates`: the spec's synthetic series
`[-100, 121]` admits a returned rate, and a no-sign-change series yields
`none`. -/
theorem C9_tir_terminates_witness :
    (∃ f ∈ ([-100, 121] : List ℚ), 0 < f) ∧ (∃ f ∈ ([-100, 121] : List ℚ), f < 0) ∧
      (∃ q, calcularTir [-100, 121] = some q) ∧ calcularTir [1, 2] = none :=
  ⟨by decide, by decide,
    (C9_tir_terminates [-100, 121]).1 (by decide) (by decide),
    (C9_tir_terminates [1, 2]).2.1 (Or.inr (by decide))⟩

/-!  # C2 — sum-equals-total invariant -/

theorem foldl_add_shift (l : List ℚ) (a : ℚ) :
    l.foldl (· + ·) a = a + l.foldl (· + ·) 0 := by
  induction l generalizing a with
  | nil => simp
  | cons x xs ih =>
    show xs.foldl (· + ·) (a + x) = a + xs.foldl (· + ·) (0 + x)
    rw [ih (a + x), ih (0 + x)]
    ring

theorem listSum_cons (x : ℚ) (l : List ℚ) : listSum (x :: l) = x + listSum l := by
  show l.foldl (· + ·) (0 + x) = x + l.foldl (· + ·) 0
  rw [foldl_add_shift]
  ring

theorem listSum_map_mul (l : List ℚ) (c : ℚ) :
    listSum (l.map (fun x => x * c)) = listSum l * c := by
  induction l with
  | nil => simp [listSum]
  | cons x xs ih =>
    rw [List.map_cons, listSum_cons, listSum_cons, ih]
    ring

/-- C2 amended: the `sum(monthly) = scalar` invariant holds for the lines
whose scalars the source computes from the arrays themselves — the
revenue breakdown, bad debt, net revenue, the cost and expense aggregates
and the tax line — but (see `C2_counterexample`) not for every sub-line. -/
theorem C2_sum_totais (r : ResultadoPremissas) :
    (simular r).receita_bruta = listSum (simular r).receita_bruta_mensal ∧
    (simular r).receita_entrada = listSum (simular r).rec_entrada_mensal ∧
    (simular r).receita_parcelas = listSum (simular r).rec_parcelas_mensal ∧
    (simular r).receita_intermediarias = listSum (simular r).rec_intermediarias_mensal ∧
    (simular r).valor_inadimplencia = listSum (simular r).inadimplencia_mensal ∧
    (simular r).receita_liquida = listSum (simular r).receitas_mensais ∧
    (simular r).custo_total = listSum (simular r).custos_mensais ∧
    (simular r).despesa_total = listSum (simular r).despesas_mensais ∧
    (simular r).impostos_total = listSum (simular r).impostos_mensal := by
  simp only [simular]
  split
  · exact ⟨rfl, rfl, rfl, rfl, rfl, rfl, rfl, rfl, rfl⟩
  · exact ⟨rfl, rfl, rfl, rfl, (listSum_map_mul _ _).symm, rfl, rfl, rfl,
      (listSum_map_mul _ _).symm⟩

/-- Concrete input for the C2 counterexample: a 5% commission assumption
but no per-unit ticket assumption (ticket defaults to 0), so the monthly
commission line carries nothing while the scalar is 5% of the sales
value. -/
def rC2 : ResultadoPremissas :=
  { inputs := { tipologia := Tipologia.INCORPORACAO_VERTICAL, num_unidades := 10,
                area_terreno_m2 := none },
    premissas := [{ nome := "VGV estimado", valor := 100 },
      { nome := "Comissão de corretagem", valor := 5 }],
    tabela_vendas := none, tabela_vendas_loteamento := none }

unseal Rat.add Rat.mul Rat.inv Rat.sub in
/-- C2 counterexample: at `rC2`, `desp_comissoes = 5` but the monthly
commission array sums to 0 — far outside any 1e-6 relative tolerance. -/
theorem C2_counterexample :
    (simular rC2).desp_comissoes = 5 ∧
      listSum (simular rC2).desp_comissoes_mensal = 0 ∧
      pyAbs (listSum (simular rC2).desp_comissoes_mensal - (simular rC2).desp_comissoes) >
        pyAbs (simular rC2).desp_comissoes * (1 / 1000000) := by
  refine ⟨by decide, by decide, by decide⟩

/-!  # C5 — reinforcement months -/

/-- C5 amended: every reinforcement for a unit sold at month `m` falls at a
month `m + 6k` (`k ≥ 1`) inside the horizon; those months are all no
later than delivery **when the sale is at least 6 months before
delivery**, but for a sale within 6 months of delivery (or after it) a
single reinforcement is scheduled at `m + 6`, which is *later* than the
delivery month. -/
theorem C5_reforco_meses (valor ref_pct : ℚ) (entrega m total : ℕ) :
    (∀ q ∈ reforcoPairs valor ref_pct entrega m total,
      (∃ k, 1 ≤ k ∧ q.1 = m + 6 * k) ∧ q.1 < total) ∧
    (m + 6 ≤ entrega → ∀ q ∈ reforcoPairs valor ref_pct entrega m total, q.1 ≤ entrega) ∧
    (entrega < m + 6 → 0 < ref_pct → m + 6 < total →
      reforcoPairs valor ref_pct entrega m total = [(m + 6, valor * ref_pct)]) := by
  refine ⟨fun q hq => ?_, fun hfar q hq => ?_, fun hnear hpos htot => ?_⟩
  · unfold reforcoPairs at hq
    by_cases hp : 0 < ref_pct
    · rw [if_pos hp] at hq
      rcases List.mem_filter.mp hq with ⟨hmap, hlt⟩
      rcases List.mem_map.mp hmap with ⟨rr, hrr, rfl⟩
      simp only [pyRange, List.mem_map, List.mem_range] at hrr
      rcases hrr with ⟨j, hj, rfl⟩
      exact ⟨⟨1 + j, by omega, by omega⟩, by simpa using hlt⟩
    · rw [if_neg hp] at hq
      simp at hq
  · unfold reforcoPairs at hq
    by_cases hp : 0 < ref_pct
    · rw [if_pos hp] at hq
      rcases List.mem_filter.mp hq with ⟨hmap, _⟩
      rcases List.mem_map.mp hmap with ⟨rr, hrr, rfl⟩
      simp only [pyRange, List.mem_map, List.mem_range] at hrr
      rcases hrr with ⟨j, hj, rfl⟩
      unfold reforcoNum at hj
      simp only []
      omega
    · rw [if_neg hp] at hq
      simp at hq
  · have hn : reforcoNum entrega m = 1 := by unfold reforcoNum; omega
    unfold reforcoPairs
    rw [if_pos hpos, hn]
    show (((pyRange 1 2).map _).filter _) = _
    have h12 : pyRange 1 2 = [1] := rfl
    rw [h12, List.map_cons, List.map_nil, List.filter_cons, List.filter_nil]
    simp only [Nat.cast_one, div_one, one_mul]
    rw [if_pos (by simpa using htot)]

/-- Concrete input for the C5 counterexample: delivery at month 4, a sale
at month 3 (one month before delivery), a sales table that pays only
reinforcements (`financiamento_pct = 0`). -/
def rC5 : ResultadoPremissas :=
  { inputs := { tipologia := Tipologia.INCORPORACAO_VERTICAL, num_unidades := 12,
                area_terreno_m2 := none },
    premissas := [{ nome := "VGV estimado", valor := 1200 },
      { nome := "Ticket médio por unidade", valor := 100 },
      { nome := "Prazo para Registro de Incorporação/Loteamento", valor := 0 },
      { nome := "Prazo de obra estimado", valor := 4 },
      { nome := "Vendas no lançamento", valor := 0 },
      { nome := "Vendas durante obra", valor := 100 },
      { nome := "Vendas pós-obra", valor := 0 },
      { nome := "Taxa de distrato estimada", valor := 0 },
      { nome := "Taxa de inadimplência estimada", valor := 0 }],
    tabela_vendas := some ⟨0, 0, 0, 100, 0⟩,
    tabela_vendas_loteamento := none }

unseal Rat.add Rat.mul Rat.inv Rat.sub in
/-- C5 counterexample: at `rC5` delivery is month 4 and financing is 0%,
yet the reinforcement/financing revenue line holds a nonzero amount at
month 9 = 3 + 6 — **after** the delivery month — for the unit sold at
month 3. -/
theorem C5_counterexample :
    mesEntrega (mkParams rC5) = 4 ∧
      (mkParams rC5).inc.financiamento_pct = 0 ∧
      (simular rC5).rec_intermediarias_mensal.getD 9 0 ≠ 0 := by
  refine ⟨rfl, by decide, by decide⟩

/-- Witness for `C5_reforco_meses`: a sale one month before a delivery at
month 4 gets its single reinforcement at month 6 > 4. -/
theorem C5_reforco_meses_witness :
    (4 : ℕ) < 3 + 6 ∧ (0 : ℚ) < 1 ∧ 3 + 6 < 36 ∧
      reforcoPairs 100 1 4 3 36 = [(3 + 6, 100 * 1)] :=
  ⟨by decide, by norm_num, by decide,
    (C5_reforco_meses 100 1 4 3 36).2.2 (by decide) (by norm_num) (by decide)⟩

/-!  # C4 — zero construction period -/

theorem le_totalMeses (p : SimParams) : 36 ≤ totalMeses p := by
  unfold totalMeses
  omega

theorem simular_vendas_getD (r : ResultadoPremissas)
    (hv : 0 < getPremissaValor r "VGV estimado" 0) (m : ℕ) :
    (simular r).vendas_unidades_mensal.getD m 0 =
      if m < totalMeses (mkParams r) then
        unidadesVendasFn (mkParams r) m * fatorLiquido (mkParams r)
      else 0 := by
  simp only [simular]
  rw [if_neg (show ¬(mkParams r).vgv ≤ 0 from not_le.mpr hv)]
  show ((unidadesVendas (mkParams r)).map _).getD m 0 = _
  unfold unidadesVendas
  rw [List.getD_eq_getElem?_getD, List.getElem?_map, List.getElem?_map]
  by_cases hm : m < totalMeses (mkParams r)
  · rw [List.getElem?_range hm, if_pos hm]
    rfl
  · rw [List.getElem?_eq_none (by simp [List.length_range]; omega), if_neg hm]
    rfl

/-- C4 corrected behaviour, for every typology.  (a) When the
construction period resolves to 0, the unit-sales schedule carries
**only** the post-delivery volume, spread over the 12 months from the
registration month (truncated at the horizon): the construction-phase
volume is dropped (its loop range is empty) and the launch allocation is
overwritten by the post-delivery assignment loop.  (b) When the
registration period is 0 (and the launch window is not overwritten,
construction ≥ 3), launch sales start at month 0. -/
theorem C4_obra_zero_schedule (r : ResultadoPremissas) :
    ((mkParams r).prazo_obra = 0 →
      0 < getPremissaValor r "VGV estimado" 0 →
      ∀ m, m < totalMeses (mkParams r) →
        (simular r).vendas_unidades_mensal.getD m 0 =
          if (mkParams r).prazo_registro ≤ m ∧
              m < min ((mkParams r).prazo_registro + 12) (totalMeses (mkParams r)) then
            (mkParams r).num_unidades * (mkParams r).vendas_pos_obra_pct / 12 *
              fatorLiquido (mkParams r)
          else 0) ∧
    ((mkParams r).prazo_registro = 0 → 3 ≤ (mkParams r).prazo_obra →
      0 < getPremissaValor r "VGV estimado" 0 →
      (simular r).vendas_unidades_mensal.getD 0 0 =
        (mkParams r).num_unidades * (mkParams r).vendas_lancamento_pct / 3 *
          fatorLiquido (mkParams r)) := by
  constructor
  · intro hobra hv m hm
    rw [simular_vendas_getD r hv m, if_pos hm]
    simp only [unidadesVendasFn, mesEntrega, mesLancamento, mesesObraVenda]
    split_ifs with h1 h2 h3 h4 h4 h5 h6 <;> first | rfl | omega | exact zero_mul _
  · intro hreg hobra hv
    have h0 : 0 < totalMeses (mkParams r) := lt_of_lt_of_le (by norm_num) (le_totalMeses _)
    rw [simular_vendas_getD r hv 0, if_pos h0]
    simp only [unidadesVendasFn, mesEntrega, mesLancamento, mesesObraVenda]
    have h36 := le_totalMeses (mkParams r)
    split_ifs with h1 h2 h3 <;> first | rfl | omega

/-- Concrete input for the C4 counterexample: construction period 0,
registration 0, no cancellation; launch 30% / construction 50% /
post-delivery 20% of 12 units.  Under the claim, all 12 units would be
scheduled (construction volume on the delivery month, launch volume
kept); the code schedules only the post-delivery 2.4 units. -/
def rC4 : ResultadoPremissas :=
  { inputs := { tipologia := Tipologia.INCORPORACAO_VERTICAL, num_unidades := 12,
                area_terreno_m2 := none },
    premissas := [{ nome := "VGV estimado", valor := 1200 },
      { nome := "Ticket médio por unidade", valor := 100 },
      { nome := "Prazo para Registro de Incorporação/Loteamento", valor := 0 },
      { nome := "Prazo de obra estimado", valor := 0 },
      { nome := "Taxa de distrato estimada", valor := 0 }],
    tabela_vendas := none, tabela_vendas_loteamento := none }

unseal Rat.add Rat.mul Rat.inv Rat.sub in
/-- C4 counterexample: with construction period 0 the schedule totals only
12/5 = 2.4 units (the 20% post-delivery share) instead of the 12 net
units the claim requires, and the delivery month (month 0) carries 1/5 of
a unit, not the 6-unit construction volume: construction-phase units are
dropped and the launch allocation is overwritten. -/
theorem C4_counterexample :
    listSum (simular rC4).vendas_unidades_mensal = 12 / 5 ∧
      (simular rC4).vendas_unidades_mensal.getD 0 0 = 1 / 5 ∧
      (12 : ℚ) / 5 ≠ 12 := by
  refine ⟨by decide, by decide, by decide⟩

/-- Concrete input for the C4 witness, part (b): registration 0 with a
3-month-or-longer construction period, so launch is not overwritten. -/
def rC4b : ResultadoPremissas :=
  { inputs := { tipologia := Tipologia.INCORPORACAO_VERTICAL, num_unidades := 12,
                area_terreno_m2 := none },
    premissas := [{ nome := "VGV estimado", valor := 1200 },
      { nome := "Ticket médio por unidade", valor := 100 },
      { nome := "Prazo para Registro de Incorporação/Loteamento", valor := 0 },
      { nome := "Prazo de obra estimado", valor := 4 },
      { nome := "Taxa de distrato estimada", valor := 0 }],
    tabela_vendas := none, tabela_vendas_loteamento := none }

unseal Rat.add Rat.mul Rat.inv Rat.sub in
/-- Witness for `C4_obra_zero_schedule`: part (a) at `rC4`, month 5; part
(b) at `rC4b`, month 0. -/
theorem C4_obra_zero_schedule_witness :
    ((mkParams rC4).prazo_obra = 0 ∧ (5 : ℕ) < totalMeses (mkParams rC4) ∧
      (simular rC4).vendas_unidades_mensal.getD 5 0 =
        (if (mkParams rC4).prazo_registro ≤ 5 ∧
            5 < min ((mkParams rC4).prazo_registro + 12) (totalMeses (mkParams rC4)) then
          (mkParams rC4).num_unidades * (mkParams rC4).vendas_pos_obra_pct / 12 *
            fatorLiquido (mkParams rC4)
        else 0)) ∧
    ((mkParams rC4b).prazo_registro = 0 ∧ 3 ≤ (mkParams rC4b).prazo_obra ∧
      (simular rC4b).vendas_unidades_mensal.getD 0 0 =
        (mkParams rC4b).num_unidades * (mkParams rC4b).vendas_lancamento_pct / 3 *
          fatorLiquido (mkParams rC4b)) :=
  ⟨⟨rfl, by decide,
      (C4_obra_zero_schedule rC4).1 rfl (by norm_num [getPremissaValor, getPremissa, rC4])
        5 (by decide)⟩,
    ⟨rfl, by decide,
      (C4_obra_zero_schedule rC4b).2 rfl (by decide)
        (by norm_num [getPremissaValor, getPremissa, rC4b])⟩⟩

/-!  # C10 — diagnostic ordering and stability -/

theorem le_fst_of_mem_enumFrom {α : Type} :
    ∀ (l : List α) (n : ℕ) (q : ℕ × α), q ∈ List.enumFrom n l → n ≤ q.1 := by
  intro l
  induction l with
  | nil => intro n q h; simp [List.enumFrom] at h
  | cons x xs ih =>
    intro n q h
    rw [show List.enumFrom n (x :: xs) = (n, x) :: List.enumFrom (n + 1) xs from rfl] at h
    rcases List.mem_cons.mp h with rfl | h'
    · exact le_refl n
    · have := ih (n + 1) q h'
      omega

theorem pairwise_fst_lt_enumFrom {α : Type} :
    ∀ (l : List α) (n : ℕ), List.Pairwise (fun a b => a.1 < b.1) (List.enumFrom n l) := by
  intro l
  induction l with
  | nil => intro n; exact List.Pairwise.nil
  | cons x xs ih =>
    intro n
    rw [show List.enumFrom n (x :: xs) = (n, x) :: List.enumFrom (n + 1) xs from rfl]
    refine List.pairwise_cons.mpr ⟨fun q hq => ?_, ih (n + 1)⟩
    have := le_fst_of_mem_enumFrom xs (n + 1) q hq
    omega

theorem map_snd_filter_enumFrom {α : Type} (p : α → Bool) :
    ∀ (l : List α) (n : ℕ),
      ((List.enumFrom n l).filter (fun q => p q.2)).map Prod.snd = l.filter p := by
  intro l
  induction l with
  | nil => intro n; rfl
  | cons x xs ih =>
    intro n
    rw [show List.enumFrom n (x :: xs) = (n, x) :: List.enumFrom (n + 1) xs from rfl,
      List.filter_cons, List.filter_cons]
    by_cases hp : p x
    · simp only [hp, if_pos, List.map_cons, ih (n + 1)]
    · simp only [hp, Bool.false_eq_true, if_false, ih (n + 1)]

instance : IsAntisymm (ℕ × ItemDiagnostico) (fun a b => a.1 < b.1) :=
  ⟨fun _ _ h1 h2 => ((Nat.lt_asymm h1) h2).elim⟩

theorem sortEstavel_filter (l : List ItemDiagnostico) (s : String) :
    (sortEstavel l).filter (fun it => it.severidade == s) =
      l.filter (fun it => it.severidade == s) := by
  unfold sortEstavel
  have hperm : List.Perm (List.insertionSort diagRel l.enum) l.enum :=
    List.perm_insertionSort diagRel l.enum
  have hsorted : List.Sorted diagRel (List.insertionSort diagRel l.enum) :=
    List.sorted_insertionSort diagRel l.enum
  have hpermf : List.Perm
      ((List.insertionSort diagRel l.enum).filter (fun q => q.2.severidade == s))
      (l.enum.filter (fun q => q.2.severidade == s)) :=
    hperm.filter _
  have hdl : (l.enum.filter (fun q => q.2.severidade == s)).Pairwise
      (fun a b => a.1 < b.1) :=
    (pairwise_fst_lt_enumFrom l 0).filter _
  have hmemP : ∀ q ∈ (List.insertionSort diagRel l.enum).filter
      (fun q => q.2.severidade == s), q.2.severidade = s := by
    intro q hq
    have := List.of_mem_filter hq
    exact eq_of_beq this
  have hds1 : ((List.insertionSort diagRel l.enum).filter
      (fun q => q.2.severidade == s)).Pairwise (fun a b => a.1 ≤ b.1) := by
    refine (hsorted.filter _).imp_of_mem ?_
    intro a b ha hb hr
    have hsa := hmemP a ha
    have hsb := hmemP b hb
    rcases hr with hlt | ⟨_, hle⟩
    · rw [hsa, hsb] at hlt
      omega
    · exact hle
  have hne : ((List.insertionSort diagRel l.enum).filter
      (fun q => q.2.severidade == s)).Pairwise (fun a b => a.1 ≠ b.1) := by
    have h1 : ((l.enum.filter (fun q => q.2.severidade == s)).map Prod.fst).Pairwise
        (fun a b => a ≠ b) := by
      rw [List.pairwise_map]
      exact hdl.imp fun h => Nat.ne_of_lt h
    have h2 : (((List.insertionSort diagRel l.enum).filter
        (fun q => q.2.severidade == s)).map Prod.fst).Pairwise (fun a b => a ≠ b) :=
      ((hpermf.map Prod.fst).nodup_iff).mpr h1
    rw [List.pairwise_map] at h2
    exact h2
  have hds : ((List.insertionSort diagRel l.enum).filter
      (fun q => q.2.severidade == s)).Pairwise (fun a b => a.1 < b.1) :=
    (hds1.and hne).imp fun h => lt_of_le_of_ne h.1 h.2
  have heq : (List.insertionSort diagRel l.enum).filter (fun q => q.2.severidade == s) =
      l.enum.filter (fun q => q.2.severidade == s) :=
    List.eq_of_perm_of_sorted hpermf hds hdl
  calc ((List.insertionSort diagRel l.enum).map Prod.snd).filter
        (fun it => it.severidade == s)
      = ((List.insertionSort diagRel l.enum).filter
          (fun q => q.2.severidade == s)).map Prod.snd := by
        rw [List.filter_map]
        rfl
    _ = (l.enum.filter (fun q => q.2.severidade == s)).map Prod.snd := by rw [heq]
    _ = l.filter (fun it => it.severidade == s) :=
        map_snd_filter_enumFrom (fun it => it.severidade == s) l 0

theorem sortEstavel_sorted (l : List ItemDiagnostico) :
    (sortEstavel l).Pairwise
      (fun a b => ordemSeveridade a.severidade ≤ ordemSeveridade b.severidade) := by
  unfold sortEstavel
  have hsorted : List.Sorted diagRel (List.insertionSort diagRel l.enum) :=
    List.sorted_insertionSort diagRel l.enum
  rw [List.pairwise_map]
  refine hsorted.imp ?_
  intro a b hr
  rcases hr with hlt | ⟨heq, _⟩
  · omega
  · omega

/-- C10: for every diagnostic run on a positive-VGV result, the returned
findings have non-decreasing severity rank (critical 0, attention 1,
positive 2) and, for each severity, the findings of that severity appear
exactly in their original check order (stable sort: the filtered
sub-list equals that of the pre-sort check battery `diagItens`). -/
theorem C10_diagnostico_ordering (r : ResultadoPremissas) (sim : ResultadoSimulacao)
    (hv : 0 < sim.vgv) :
    (gerar_diagnostico r sim).Pairwise
      (fun a b => ordemSeveridade a.severidade ≤ ordemSeveridade b.severidade) ∧
    ∀ s : String,
      (gerar_diagnostico r sim).filter (fun it => it.severidade == s) =
        (diagItens r sim).filter (fun it => it.severidade == s) := by
  have hg : gerar_diagnostico r sim = sortEstavel (diagItens r sim) := by
    unfold gerar_diagnostico
    rw [if_neg (not_le.mpr hv)]
  rw [hg]
  exact ⟨sortEstavel_sorted _, fun s => sortEstavel_filter _ s⟩

/-- Concrete input for the C10 witness: a 20% cancellation rate (critical),
a 20% launch share (attention) and a 10% land share (positive). -/
def rC10 : ResultadoPremissas :=
  { inputs := { tipologia := Tipologia.INCORPORACAO_VERTICAL, num_unidades := 10,
                area_terreno_m2 := none },
    premissas := [{ nome := "Taxa de distrato estimada", valor := 20 },
      { nome := "Velocidade de vendas", valor := 3 },
      { nome := "Vendas no lançamento", valor := 20 },
      { nome := "Custo do terreno (% VGV)", valor := 10 }],
    tabela_vendas := none, tabela_vendas_loteamento := none }

/-- Concrete result for the C10 witness: healthy margin and IRR (two
positive findings). -/
def simC10 : ResultadoSimulacao :=
  { vgv := 100, margem_vgv := 25, tir_anual := 25 }

unseal Rat.add Rat.mul Rat.inv Rat.sub in
/-- Witness for `C10_diagnostico_ordering`: a run with a critical, an
attention and two positive findings; its output is severity-sorted and
its critical sub-list matches the pre-sort check order. -/
theorem C10_diagnostico_ordering_witness :
    0 < simC10.vgv ∧
      ("critico" ∈ (gerar_diagnostico rC10 simC10).map ItemDiagnostico.severidade ∧
        "atencao" ∈ (gerar_diagnostico rC10 simC10).map ItemDiagnostico.severidade ∧
        "positivo" ∈ (gerar_diagnostico rC10 simC10).map ItemDiagnostico.severidade) ∧
      (gerar_diagnostico rC10 simC10).Pairwise
        (fun a b => ordemSeveridade a.severidade ≤ ordemSeveridade b.severidade) ∧
      (gerar_diagnostico rC10 simC10).filter (fun it => it.severidade == "critico") =
        (diagItens rC10 simC10).filter (fun it => it.severidade == "critico") :=
  ⟨by decide, by decide,
    (C10_diagnostico_ordering rC10 simC10 (by decide)).1,
    (C10_diagnostico_ordering rC10 simC10 (by decide)).2 "critico"⟩
